/-
Shallow embedding of the Foster Platform OpenGL render backend
(src/Platform/src/foster_renderer_opengl.c) and verification of its
specification claims.

Modelling conventions:
- C `int` / `GLint` / `GLsizei` values are modelled as `Int`;
  `GLuint` object ids and `GLenum` constants as `Nat`.
- GL driver entry points are not executed: every operation returns, next to
  its state/heap updates, the list of GL calls it issued (`GLCall`), so that
  "issues zero underlying GPU calls" is a statement about that trace.
- Host-heap texture records live in a `Heap` (index = host pointer,
  `none` = freed by SDL_free or never allocated); `SDL_free` is modelled by
  setting the slot to `none`.
- Log output is modelled as `Event.log` entries in a trace.
- C enum fields that the source stores out-of-range sentinels into
  (the texture sampler is initialized to -1 on all fields) are modelled
  as `Int` with the enum constants as named values.
- Float computations (normalized clear/blend colors) are modelled over ℚ.
-/
import Mathlib

namespace Foster

/-! ### OpenGL constants (from the #define block of foster_renderer_opengl.c) -/

def GL_ZERO : Nat := 0x0000
def GL_COLOR_BUFFER_BIT : Nat := 0x4000
def GL_DEPTH_BUFFER_BIT : Nat := 0x0100
def GL_STENCIL_BUFFER_BIT : Nat := 0x0400
def GL_SCISSOR_TEST : Nat := 0x0C11
def GL_DEPTH_TEST : Nat := 0x0B71
def GL_FRONT : Nat := 0x0404
def GL_BACK : Nat := 0x0405
def GL_CULL_FACE : Nat := 0x0B44
def GL_TEXTURE_2D : Nat := 0x0DE1
def GL_BLEND : Nat := 0x0BE2
def GL_MIN : Nat := 0x8007
def GL_MAX : Nat := 0x8008
def GL_FUNC_ADD : Nat := 0x8006
def GL_FUNC_SUBTRACT : Nat := 0x800A
def GL_FUNC_REVERSE_SUBTRACT : Nat := 0x800B
def GL_NEVER : Nat := 0x0200
def GL_LESS : Nat := 0x0201
def GL_EQUAL : Nat := 0x0202
def GL_LEQUAL : Nat := 0x0203
def GL_GREATER : Nat := 0x0204
def GL_NOTEQUAL : Nat := 0x0205
def GL_GEQUAL : Nat := 0x0206
def GL_ALWAYS : Nat := 0x0207
def GL_REPEAT : Nat := 0x2901
def GL_CLAMP_TO_EDGE : Nat := 0x812F
def GL_MIRRORED_REPEAT : Nat := 0x8370
def GL_NEAREST : Nat := 0x2600
def GL_LINEAR : Nat := 0x2601
def GL_COLOR_ATTACHMENT0 : Nat := 0x8CE0
def GL_DEPTH_STENCIL_ATTACHMENT : Nat := 0x821A
def GL_RED : Nat := 0x1903
def GL_RGBA : Nat := 0x1908
def GL_DEPTH24_STENCIL8 : Nat := 0x88F0
def GL_DEPTH_STENCIL : Nat := 0x84F9
def GL_UNSIGNED_BYTE : Nat := 0x1401
def GL_UNSIGNED_INT_24_8 : Nat := 0x84FA
def GL_TEXTURE_WRAP_S : Nat := 0x2802
def GL_TEXTURE_WRAP_T : Nat := 0x2803
def GL_TEXTURE_MAG_FILTER : Nat := 0x2800
def GL_TEXTURE_MIN_FILTER : Nat := 0x2801
def GL_TEXTURE0 : Nat := 0x84C0
def GL_ARRAY_BUFFER : Nat := 0x8892
def GL_ELEMENT_ARRAY_BUFFER : Nat := 0x8893
def GL_DYNAMIC_DRAW : Nat := 0x88E8
def GL_FRAMEBUFFER : Nat := 0x8D40
def GL_TRIANGLES : Nat := 0x0004
def GL_FLOAT : Nat := 0x1406
def GL_FLOAT_VEC2 : Nat := 0x8B50
def GL_FLOAT_VEC3 : Nat := 0x8B51
def GL_FLOAT_VEC4 : Nat := 0x8B52
def GL_SAMPLER_2D : Nat := 0x8B5E
def GL_FLOAT_MAT3x2 : Nat := 0x8B67
def GL_FLOAT_MAT4 : Nat := 0x8B5C
def GL_UNSIGNED_SHORT : Nat := 0x1403
def GL_UNSIGNED_INT : Nat := 0x1405

/-- FOSTER_MAX_UNIFORM_TEXTURES from foster_platform.h -/
def FOSTER_MAX_UNIFORM_TEXTURES : Int := 32

/-- FOSTER_MAX_TARGET_ATTACHMENTS from foster_platform.h -/
def FOSTER_MAX_TARGET_ATTACHMENTS : Int := 8

/-! ### Public enums (foster_platform.h) -/

inductive FosterCompare where
  | NONE | ALWAYS | NEVER | LESS | EQUAL | LESS_OR_EQUAL | GREATER
  | NOT_EQUAL | GREATOR_OR_EQUAL
deriving DecidableEq, Repr

inductive FosterCull where
  | NONE | FRONT | BACK
deriving DecidableEq, Repr

inductive FosterBlendOp where
  | ADD | SUBTRACT | REVERSE_SUBTRACT | MIN | MAX
deriving DecidableEq, Repr

inductive FosterBlendFactor where
  | Zero | One | SrcColor | OneMinusSrcColor | DstColor | OneMinusDstColor
  | SrcAlpha | OneMinusSrcAlpha | DstAlpha | OneMinusDstAlpha
  | ConstantColor | OneMinusConstantColor | ConstantAlpha
  | OneMinusConstantAlpha | SrcAlphaSaturate | Src1Color | OneMinusSrc1Color
  | Src1Alpha | OneMinusSrc1Alpha
deriving DecidableEq, Repr

inductive FosterTextureFormat where
  | R8G8B8A8 | R8 | DEPTH24_STENCIL8
deriving DecidableEq, Repr

inductive FosterUniformType where
  | NONE | FLOAT | FLOAT2 | FLOAT3 | FLOAT4 | MAT3X2 | MAT4X4 | TEXTURE2D
  | SAMPLER2D
deriving DecidableEq, Repr

/-- FosterClearMask bits (FOSTER_CLEAR_MASK_COLOR = 1, DEPTH = 2, STENCIL = 4);
the command carries an OR of these, modelled as the C integer value. -/
def FOSTER_CLEAR_MASK_COLOR : Nat := 1
def FOSTER_CLEAR_MASK_DEPTH : Nat := 2
def FOSTER_CLEAR_MASK_STENCIL : Nat := 4

/-- FosterBlendMask bits (R=1, G=2, B=4, A=8); `FosterBlend.mask` carries an
OR of these as the C integer value. -/
def FOSTER_BLEND_MASK_R : Nat := 1
def FOSTER_BLEND_MASK_G : Nat := 2
def FOSTER_BLEND_MASK_B : Nat := 4
def FOSTER_BLEND_MASK_A : Nat := 8

/-- Texture filter / wrap enum values, kept as C integers because the source
stores the out-of-range sentinel -1 into sampler fields at texture creation. -/
def FOSTER_TEXTURE_FILTER_NEAREST : Int := 0
def FOSTER_TEXTURE_FILTER_LINEAR : Int := 1
def FOSTER_TEXTURE_WRAP_REPEAT : Int := 0
def FOSTER_TEXTURE_WRAP_MIRRORED_REPEAT : Int := 1
def FOSTER_TEXTURE_WRAP_CLAMP_TO_EDGE : Int := 2
def FOSTER_TEXTURE_WRAP_CLAMP_TO_BORDER : Int := 3

/-! ### Public structs (foster_platform.h) -/

structure FosterRect where
  x : Int
  y : Int
  w : Int
  h : Int
deriving DecidableEq, Repr

structure FosterColor where
  r : Nat
  g : Nat
  b : Nat
  a : Nat
deriving DecidableEq, Repr

structure FosterTextureSampler where
  filter : Int
  wrapX : Int
  wrapY : Int
deriving DecidableEq, Repr

structure FosterBlend where
  colorOp : FosterBlendOp
  colorSrc : FosterBlendFactor
  colorDst : FosterBlendFactor
  alphaOp : FosterBlendOp
  alphaSrc : FosterBlendFactor
  alphaDst : FosterBlendFactor
  mask : Nat
  rgba : Nat
deriving DecidableEq, Repr

structure FosterUniformInfo where
  index : Int
  name : String
  type : FosterUniformType
  arrayElements : Int
deriving DecidableEq, Repr

/-! ### Backend structs (foster_renderer_opengl.c) -/

structure FosterTexture_OpenGL where
  id : Nat
  width : Int
  height : Int
  format : FosterTextureFormat
  glInternalFormat : Nat
  glFormat : Nat
  glType : Nat
  glAttachment : Nat
  sampler : FosterTextureSampler
  refCount : Int
  disposed : Bool
deriving DecidableEq, Repr

structure FosterTarget_OpenGL where
  id : Nat
  width : Int
  height : Int
  attachmentCount : Int
  colorAttachmentCount : Int
  attachments : List (Option Nat)
deriving DecidableEq, Repr

structure FosterUniform_OpenGL where
  name : String
  samplerName : String
  glLocation : Int
  glSize : Int
  glType : Nat
  samplerIndex : Int
deriving DecidableEq, Repr

structure FosterShader_OpenGL where
  id : Nat
  uniformCount : Int
  samplerCount : Int
  uniforms : List FosterUniform_OpenGL
  textures : List (Option Nat)
  samplers : List FosterTextureSampler
deriving DecidableEq, Repr

structure FosterMesh_OpenGL where
  id : Nat
  indexBuffer : Nat
  vertexBuffer : Nat
  instanceBuffer : Nat
  indexFormat : Nat
  indexSize : Int
  vertexBufferSize : Int
  indexBufferSize : Int
deriving DecidableEq, Repr

/-- The stored-OpenGL-state part of the process-wide FosterOpenGLState struct,
plus the window pixel size that FosterGetSizeInPixels reports (external to the
renderer, read when binding the NULL framebuffer). -/
structure FosterOpenGLState where
  stateInitializing : Bool
  stateActiveTextureSlot : Int
  stateTextureSlots : List Nat
  stateProgram : Nat
  stateFrameBuffer : Nat
  stateVertexArray : Nat
  stateFrameBufferWidth : Int
  stateFrameBufferHeight : Int
  stateHasScissor : Int
  stateViewport : FosterRect
  stateScissor : FosterRect
  stateCompare : FosterCompare
  stateCull : FosterCull
  stateBlend : FosterBlend
  stateDepthMask : Int
  windowPixelWidth : Int
  windowPixelHeight : Int
deriving DecidableEq, Repr

/-! ### GL call / event traces -/

/-- One GL driver call as issued by the backend, with the arguments the source
passes (float arguments over ℚ). -/
inductive GLCall where
  | glViewport (x y w h : Int)
  | glEnable (cap : Nat)
  | glDisable (cap : Nat)
  | glScissor (x y w h : Int)
  | glBlendEquationSeparate (modeRGB modeAlpha : Nat)
  | glBlendFuncSeparate (srcRGB dstRGB srcAlpha dstAlpha : Nat)
  | glColorMask (r g b a : Bool)
  | glBlendColor (r g b a : ℚ)
  | glDepthFunc (fn : Nat)
  | glDepthMask (flag : Bool)
  | glCullFace (mode : Nat)
  | glBindFramebuffer (target fb : Nat)
  | glDrawBuffers (bufs : List Nat)
  | glBindTexture (target id : Nat)
  | glActiveTexture (unit : Nat)
  | glTexParameteri (target pname : Nat) (param : Nat)
  | glClearColor (r g b a : ℚ)
  | glClearDepth (depth : ℚ)
  | glClearStencil (stencil : Int)
  | glClear (mask : Nat)
  | glUseProgram (program : Nat)
  | glBindVertexArray (array : Nat)
  | glBindBuffer (target buffer : Nat)
  | glBufferData (target : Nat) (size : Int)
  | glBufferSubData (target : Nat) (offset size : Int)
  | glGenBuffers (buffer : Nat)
  | glDeleteTextures (id : Nat)
  | glDeleteProgram (program : Nat)
  | glUniform1iv (location : Int) (count : Int) (value : List Int)
  | glUniform1fv (location : Int) (count : Int)
  | glUniform2fv (location : Int) (count : Int)
  | glUniform3fv (location : Int) (count : Int)
  | glUniform4fv (location : Int) (count : Int)
  | glUniformMatrix3x2fv (location : Int) (count : Int)
  | glUniformMatrix4fv (location : Int) (count : Int)
  | glDrawElements (mode : Nat) (count : Int) (format : Nat) (indexPtr : Int)
  | glDrawElementsInstanced (mode : Nat) (count : Int) (format : Nat)
      (indexPtr : Int) (instances : Int)
deriving DecidableEq, Repr

inductive LogLevel where
  | info | warn | error
deriving DecidableEq, Repr

/-- An observable event: either a GL call or a line pushed to the log sink. -/
inductive Event where
  | gl (c : GLCall)
  | log (lvl : LogLevel) (msg : String)
deriving DecidableEq, Repr

/-! ### Conversion functions (switch statements of the source) -/

def FosterWrapToGL (wrap : Int) : Nat :=
  if wrap = FOSTER_TEXTURE_WRAP_REPEAT then GL_REPEAT
  else if wrap = FOSTER_TEXTURE_WRAP_MIRRORED_REPEAT then GL_MIRRORED_REPEAT
  else if wrap = FOSTER_TEXTURE_WRAP_CLAMP_TO_BORDER then GL_CLAMP_TO_EDGE
  else if wrap = FOSTER_TEXTURE_WRAP_CLAMP_TO_EDGE then GL_CLAMP_TO_EDGE
  else GL_REPEAT

def FosterFilterToGL (filter : Int) : Nat :=
  if filter = FOSTER_TEXTURE_FILTER_NEAREST then GL_NEAREST
  else if filter = FOSTER_TEXTURE_FILTER_LINEAR then GL_LINEAR
  else GL_NEAREST

def FosterBlendOpToGL : FosterBlendOp → Nat
  | .ADD => GL_FUNC_ADD
  | .SUBTRACT => GL_FUNC_SUBTRACT
  | .REVERSE_SUBTRACT => GL_FUNC_REVERSE_SUBTRACT
  | .MIN => GL_MIN
  | .MAX => GL_MAX

def FosterBlendFactorToGL : FosterBlendFactor → Nat
  | .Zero => 0x0000
  | .One => 0x0001
  | .SrcColor => 0x0300
  | .OneMinusSrcColor => 0x0301
  | .DstColor => 0x0306
  | .OneMinusDstColor => 0x0307
  | .SrcAlpha => 0x0302
  | .OneMinusSrcAlpha => 0x0303
  | .DstAlpha => 0x0304
  | .OneMinusDstAlpha => 0x0305
  | .ConstantColor => 0x8001
  | .OneMinusConstantColor => 0x8002
  | .ConstantAlpha => 0x8003
  | .OneMinusConstantAlpha => 0x8004
  | .SrcAlphaSaturate => 0x0308
  | .Src1Color => 0x88F9
  | .OneMinusSrc1Color => 0x88FA
  | .Src1Alpha => 0x8589
  | .OneMinusSrc1Alpha => 0x88FB

def FosterUniformTypeFromGL (value : Nat) : FosterUniformType :=
  if value = GL_FLOAT then .FLOAT
  else if value = GL_FLOAT_VEC2 then .FLOAT2
  else if value = GL_FLOAT_VEC3 then .FLOAT3
  else if value = GL_FLOAT_VEC4 then .FLOAT4
  else if value = GL_FLOAT_MAT3x2 then .MAT3X2
  else if value = GL_FLOAT_MAT4 then .MAT4X4
  else if value = GL_SAMPLER_2D then .SAMPLER2D
  else .NONE

/-- The FOSTER_RECT_EQUAL macro. -/
def FOSTER_RECT_EQUAL (a b : FosterRect) : Bool :=
  a.x == b.x && a.y == b.y && a.w == b.w && a.h == b.h

/-! ### State-cache setters (the redundant-state-elimination core) -/

/-- FosterBindFrameBuffer: bind a target (or the NULL window framebuffer),
record the framebuffer pixel size, skip the GL calls if already bound. -/
def FosterBindFrameBuffer (s : FosterOpenGLState)
    (target : Option FosterTarget_OpenGL) : FosterOpenGLState × List GLCall :=
  let framebuffer : Nat := match target with | none => 0 | some t => t.id
  let s := match target with
    | none =>
      { s with stateFrameBufferWidth := s.windowPixelWidth,
               stateFrameBufferHeight := s.windowPixelHeight }
    | some t =>
      { s with stateFrameBufferWidth := t.width,
               stateFrameBufferHeight := t.height }
  let calls :=
    if s.stateInitializing = true ∨ s.stateFrameBuffer ≠ framebuffer then
      match target with
      | none => [GLCall.glBindFramebuffer GL_FRAMEBUFFER framebuffer,
                 GLCall.glDrawBuffers [GL_BACK]]
      | some t => [GLCall.glBindFramebuffer GL_FRAMEBUFFER framebuffer,
                   GLCall.glDrawBuffers
                     ((List.range t.colorAttachmentCount.toNat).map
                       (fun i => GL_COLOR_ATTACHMENT0 + i))]
    else []
  ({ s with stateFrameBuffer := framebuffer }, calls)

/-- FosterBindProgram -/
def FosterBindProgram (s : FosterOpenGLState) (id : Nat) :
    FosterOpenGLState × List GLCall :=
  let calls :=
    if s.stateInitializing = true ∨ s.stateProgram ≠ id then
      [GLCall.glUseProgram id]
    else []
  ({ s with stateProgram := id }, calls)

/-- FosterBindArray -/
def FosterBindArray (s : FosterOpenGLState) (id : Nat) :
    FosterOpenGLState × List GLCall :=
  let calls :=
    if s.stateInitializing = true ∨ s.stateVertexArray ≠ id then
      [GLCall.glBindVertexArray id]
    else []
  ({ s with stateVertexArray := id }, calls)

/-- FosterBindTexture: note the source activates GL_TEXTURE0 (not
GL_TEXTURE0 + slot) and never updates stateTextureSlots, exactly as written. -/
def FosterBindTexture (s : FosterOpenGLState) (slot : Nat) (id : Nat) :
    FosterOpenGLState × List GLCall :=
  let r1 :=
    if s.stateActiveTextureSlot ≠ (slot : Int) then
      ({ s with stateActiveTextureSlot := (slot : Int) },
       [GLCall.glActiveTexture GL_TEXTURE0])
    else (s, [])
  if r1.1.stateTextureSlots.getD slot 0 ≠ id then
    (r1.1, r1.2 ++ [GLCall.glBindTexture GL_TEXTURE_2D id])
  else (r1.1, r1.2)

/-- FosterEnsureTextureSlotIs -/
def FosterEnsureTextureSlotIs (s : FosterOpenGLState) (slot : Nat) (id : Nat) :
    FosterOpenGLState × List GLCall :=
  if s.stateTextureSlots.getD slot 0 ≠ id then
    let r1 :=
      if s.stateActiveTextureSlot ≠ (slot : Int) then
        ({ s with stateActiveTextureSlot := (slot : Int) },
         [GLCall.glActiveTexture (GL_TEXTURE0 + slot)])
      else (s, [])
    (r1.1, r1.2 ++ [GLCall.glBindTexture GL_TEXTURE_2D id])
  else (s, [])

/-- The viewport rectangle FosterSetViewport computes from its inputs:
the caller rect with converted y when enabled, the full framebuffer
otherwise. -/
def viewportOf (s : FosterOpenGLState) (enabled : Int) (rect : FosterRect) :
    FosterRect :=
  if enabled ≠ 0 then
    { rect with y := s.stateFrameBufferHeight - rect.y - rect.h }
  else
    { x := 0, y := 0, w := s.stateFrameBufferWidth,
      h := s.stateFrameBufferHeight }

/-- FosterSetViewport: converts the top-left-origin rect (or the full
framebuffer when not enabled) and issues glViewport only on change. -/
def FosterSetViewport (s : FosterOpenGLState) (enabled : Int)
    (rect : FosterRect) : FosterOpenGLState × List GLCall :=
  let viewport := viewportOf s enabled rect
  if s.stateInitializing = true ∨
      FOSTER_RECT_EQUAL viewport s.stateViewport = false then
    ({ s with stateViewport := viewport },
     [GLCall.glViewport viewport.x viewport.y viewport.w viewport.h])
  else (s, [])

/-- The scissor rectangle FosterSetScissor computes from its inputs
(y converted, then negative width/height clamped to zero). -/
def scissorOf (s : FosterOpenGLState) (rect : FosterRect) : FosterRect :=
  let scissor : FosterRect :=
    { rect with y := s.stateFrameBufferHeight - rect.y - rect.h }
  let scissor := if scissor.w < 0 then { scissor with w := 0 } else scissor
  if scissor.h < 0 then { scissor with h := 0 } else scissor

/-- FosterSetScissor -/
def FosterSetScissor (s : FosterOpenGLState) (enabled : Int)
    (rect : FosterRect) : FosterOpenGLState × List GLCall :=
  let scissor := scissorOf s rect
  if s.stateInitializing = true ∨ enabled ≠ s.stateHasScissor ∨
      (enabled ≠ 0 ∧ FOSTER_RECT_EQUAL scissor s.stateScissor = false) then
    if enabled ≠ 0 then
      ({ s with stateScissor := scissor, stateHasScissor := enabled },
       (if s.stateHasScissor = 0 then [GLCall.glEnable GL_SCISSOR_TEST]
        else []) ++
       [GLCall.glScissor scissor.x scissor.y scissor.w scissor.h])
    else
      ({ s with stateHasScissor := enabled },
       [GLCall.glDisable GL_SCISSOR_TEST])
  else (s, [])

/-- FosterSetBlend: field-group-wise comparison, unconditional cache write. -/
def FosterSetBlend (s : FosterOpenGLState) (blend : FosterBlend) :
    FosterOpenGLState × List GLCall :=
  let c1 :=
    if s.stateInitializing = true ∨ s.stateBlend.colorOp ≠ blend.colorOp ∨
        s.stateBlend.alphaOp ≠ blend.alphaOp then
      [GLCall.glBlendEquationSeparate (FosterBlendOpToGL blend.colorOp)
        (FosterBlendOpToGL blend.alphaOp)]
    else []
  let c2 :=
    if s.stateInitializing = true ∨ s.stateBlend.colorSrc ≠ blend.colorSrc ∨
        s.stateBlend.colorDst ≠ blend.colorDst ∨
        s.stateBlend.alphaSrc ≠ blend.alphaSrc ∨
        s.stateBlend.alphaDst ≠ blend.alphaDst then
      [GLCall.glBlendFuncSeparate (FosterBlendFactorToGL blend.colorSrc)
        (FosterBlendFactorToGL blend.colorDst)
        (FosterBlendFactorToGL blend.alphaSrc)
        (FosterBlendFactorToGL blend.alphaDst)]
    else []
  let c3 :=
    if s.stateInitializing = true ∨ s.stateBlend.mask ≠ blend.mask then
      [GLCall.glColorMask (blend.mask &&& FOSTER_BLEND_MASK_R ≠ 0)
        (blend.mask &&& FOSTER_BLEND_MASK_G ≠ 0)
        (blend.mask &&& FOSTER_BLEND_MASK_B ≠ 0)
        (blend.mask &&& FOSTER_BLEND_MASK_A ≠ 0)]
    else []
  let c4 :=
    if s.stateInitializing = true ∨ s.stateBlend.rgba ≠ blend.rgba then
      [GLCall.glBlendColor (((blend.rgba >>> 24) % 256 : Nat) / 255 : ℚ)
        (((blend.rgba >>> 16) % 256 : Nat) / 255 : ℚ)
        (((blend.rgba >>> 8) % 256 : Nat) / 255 : ℚ)
        ((blend.rgba % 256 : Nat) / 255 : ℚ)]
    else []
  ({ s with stateBlend := blend }, c1 ++ c2 ++ c3 ++ c4)

/-- FosterSetCompare: NONE is the depth-test-disabled sentinel. -/
def FosterSetCompare (s : FosterOpenGLState) (compare : FosterCompare) :
    FosterOpenGLState × List GLCall :=
  let calls :=
    if s.stateInitializing = true ∨ compare ≠ s.stateCompare then
      if compare = FosterCompare.NONE then
        [GLCall.glDisable GL_DEPTH_TEST]
      else
        (if s.stateCompare = FosterCompare.NONE then
          [GLCall.glEnable GL_DEPTH_TEST]
        else []) ++
        (match compare with
          | .NONE => []
          | .ALWAYS => [GLCall.glDepthFunc GL_ALWAYS]
          | .EQUAL => [GLCall.glDepthFunc GL_EQUAL]
          | .GREATER => [GLCall.glDepthFunc GL_GREATER]
          | .GREATOR_OR_EQUAL => [GLCall.glDepthFunc GL_GEQUAL]
          | .LESS => [GLCall.glDepthFunc GL_LESS]
          | .LESS_OR_EQUAL => [GLCall.glDepthFunc GL_LEQUAL]
          | .NEVER => [GLCall.glDepthFunc GL_NEVER]
          | .NOT_EQUAL => [GLCall.glDepthFunc GL_NOTEQUAL])
    else []
  ({ s with stateCompare := compare }, calls)

/-- FosterSetDepthMask -/
def FosterSetDepthMask (s : FosterOpenGLState) (depthMask : Int) :
    FosterOpenGLState × List GLCall :=
  let calls :=
    if s.stateInitializing = true ∨ depthMask ≠ s.stateDepthMask then
      if depthMask ≠ 0 then [GLCall.glDepthMask true]
      else [GLCall.glDepthMask false]
    else []
  ({ s with stateDepthMask := depthMask }, calls)

/-- FosterSetCull -/
def FosterSetCull (s : FosterOpenGLState) (cull : FosterCull) :
    FosterOpenGLState × List GLCall :=
  let calls :=
    if s.stateInitializing = true ∨ cull ≠ s.stateCull then
      if cull = FosterCull.NONE then
        [GLCall.glDisable GL_CULL_FACE]
      else
        (if s.stateCull = FosterCull.NONE then
          [GLCall.glEnable GL_CULL_FACE]
        else []) ++
        (match cull with
          | .NONE => []
          | .BACK => [GLCall.glCullFace GL_BACK]
          | .FRONT => [GLCall.glCullFace GL_FRONT])
    else []
  ({ s with stateCull := cull }, calls)

/-! ### Host heap of texture records

A `Heap` entry is the texture record at that host address; `none` means the
slot is freed (SDL_free) or was never allocated. C texture pointers are
modelled as `Option Nat` (NULL = `none`). -/

abbrev Heap : Type := List (Option FosterTexture_OpenGL)

def heapGet (h : Heap) (p : Nat) : Option FosterTexture_OpenGL :=
  (List.getD h p none)

def heapSet (h : Heap) (p : Nat) (t : Option FosterTexture_OpenGL) : Heap :=
  List.set h p t

/-- FosterTextureReturnReference: decrement, free the host record when the
count reaches zero (warning if the GPU data was never deleted). -/
def FosterTextureReturnReference (h : Heap) (texture : Option Nat) :
    Heap × List Event :=
  match texture with
  | none => (h, [])
  | some p =>
    match heapGet h p with
    | none => (h, [])
    | some tex =>
      let tex := { tex with refCount := tex.refCount - 1 }
      if tex.refCount ≤ 0 then
        (heapSet h p none,
         if tex.disposed = false then
           [Event.log .error
             "Texture is being freed without deleting its GPU Texture Data"]
         else [])
      else (heapSet h p (some tex), [])

/-- FosterTextureRequestReference (the C function also returns its argument,
which callers store; here only the heap update matters). -/
def FosterTextureRequestReference (h : Heap) (texture : Option Nat) : Heap :=
  match texture with
  | none => h
  | some p =>
    match heapGet h p with
    | none => h
    | some tex => heapSet h p (some { tex with refCount := tex.refCount + 1 })

/-- FosterTextureCreate_OpenGL: the freshly built record (driver-generated GL
id and the GL max-texture-size limit are external inputs). Returns `none` on
the failure paths of the source. -/
def FosterTextureCreate_OpenGL (width height : Int)
    (format : FosterTextureFormat) (maxTextureSize : Int) (genId : Nat) :
    Option FosterTexture_OpenGL :=
  if width > maxTextureSize ∨ height > maxTextureSize then none
  else
    let (internalFmt, fmt, ty) :=
      match format with
      | .R8 => (GL_RED, GL_RED, GL_UNSIGNED_BYTE)
      | .R8G8B8A8 => (GL_RGBA, GL_RGBA, GL_UNSIGNED_BYTE)
      | .DEPTH24_STENCIL8 =>
        (GL_DEPTH24_STENCIL8, GL_DEPTH_STENCIL, GL_UNSIGNED_INT_24_8)
    if genId = 0 then none
    else some
      { id := genId, width := width, height := height, format := format,
        glInternalFormat := internalFmt, glFormat := fmt, glType := ty,
        glAttachment := 0,
        sampler := { filter := -1, wrapX := -1, wrapY := -1 },
        refCount := 1, disposed := false }

/-- FosterTextureDestroy_OpenGL on the record at host address `p`:
first destroy marks disposed, deletes the GPU texture and returns the
reference; a second destroy is a no-op. -/
def FosterTextureDestroy_OpenGL (h : Heap) (p : Nat) : Heap × List Event :=
  match heapGet h p with
  | none => (h, [])
  | some tex =>
    if tex.disposed = false then
      let h := heapSet h p (some { tex with disposed := true })
      let r := FosterTextureReturnReference h (some p)
      (r.1, Event.gl (GLCall.glDeleteTextures tex.id) :: r.2)
    else (h, [])

/-- FosterSetTextureSampler: skipped entirely for disposed textures;
otherwise updates only the parameters that differ and stores the new sampler
into the texture record. -/
def FosterSetTextureSampler (s : FosterOpenGLState) (h : Heap) (p : Nat)
    (sampler : FosterTextureSampler) :
    FosterOpenGLState × Heap × List GLCall :=
  match heapGet h p with
  | none => (s, h, [])
  | some tex =>
    if tex.disposed = false ∧
        (tex.sampler.filter ≠ sampler.filter ∨
         tex.sampler.wrapX ≠ sampler.wrapX ∨
         tex.sampler.wrapY ≠ sampler.wrapY) then
      let r0 := FosterBindTexture s 0 tex.id
      let c1 :=
        if tex.sampler.filter ≠ sampler.filter then
          [GLCall.glTexParameteri GL_TEXTURE_2D GL_TEXTURE_MIN_FILTER
             (FosterFilterToGL sampler.filter),
           GLCall.glTexParameteri GL_TEXTURE_2D GL_TEXTURE_MAG_FILTER
             (FosterFilterToGL sampler.filter)]
        else []
      let c2 :=
        if tex.sampler.wrapX ≠ sampler.wrapX then
          [GLCall.glTexParameteri GL_TEXTURE_2D GL_TEXTURE_WRAP_S
             (FosterWrapToGL sampler.wrapX)]
        else []
      let c3 :=
        if tex.sampler.wrapY ≠ sampler.wrapY then
          [GLCall.glTexParameteri GL_TEXTURE_2D GL_TEXTURE_WRAP_T
             (FosterWrapToGL sampler.wrapY)]
        else []
      (r0.1, heapSet h p (some { tex with sampler := sampler }),
       r0.2 ++ c1 ++ c2 ++ c3)
    else (s, h, [])

/-! ### Shader reflection, uniform setters, destruction -/

/-- The scan in FosterShaderCreate_OpenGL that writes a NUL terminator at the
first occurrence of the three characters bracket-zero-bracket inside the
reflected uniform name. -/
def stripZeroSub : List Char → List Char
  | [] => []
  | c :: rest =>
    if c = '[' ∧ rest.take 2 = ['0', ']'] then []
    else c :: stripZeroSub rest

/-- Whether a character list contains the bracket-zero-bracket pattern. -/
def hasZeroSub : List Char → Bool
  | [] => false
  | c :: rest =>
    if c = '[' ∧ rest.take 2 = ['0', ']'] then true
    else hasZeroSub rest

/-- A reflected active uniform as reported by glGetActiveUniform and
glGetUniformLocation (driver-provided inputs to shader creation):
name buffer, array size, GL type, GL location. -/
structure ReflectedUniform where
  nameBuf : String
  glSize : Int
  glType : Nat
  glLocation : Int
deriving DecidableEq, Repr

/-- The total number of texture units consumed by the sampler-typed
uniforms of a reflected uniform list (each contributes its array length). -/
def samplerIndexSum (reflected : List ReflectedUniform) : Int :=
  (reflected.map fun r =>
    if r.glType = GL_SAMPLER_2D then r.glSize else 0).sum

/-- The uniform-caching loop of FosterShaderCreate_OpenGL: strips the array
suffix, synthesizes the sampler name, and advances the running sampler-unit
counter by glSize for sampler uniforms. Returns the uniform list and the
final samplerCount, starting from accumulator `samplerCount`. -/
def FosterShaderCreateUniforms (reflected : List ReflectedUniform)
    (samplerCount : Int) : List FosterUniform_OpenGL × Int :=
  match reflected with
  | [] => ([], samplerCount)
  | r :: rest =>
    let name : String := ⟨stripZeroSub r.nameBuf.data⟩
    let uniform : FosterUniform_OpenGL :=
      if r.glType = GL_SAMPLER_2D then
        { name := name, samplerName := name ++ "_sampler",
          glLocation := r.glLocation, glSize := r.glSize, glType := r.glType,
          samplerIndex := samplerCount }
      else
        { name := name, samplerName := "", glLocation := r.glLocation,
          glSize := r.glSize, glType := r.glType, samplerIndex := 0 }
    let samplerCount :=
      if r.glType = GL_SAMPLER_2D then samplerCount + r.glSize
      else samplerCount
    let rec' := FosterShaderCreateUniforms rest samplerCount
    (uniform :: rec'.1, rec'.2)

/-- The uniform-reflection part of FosterShaderCreate_OpenGL (compilation and
linking are driver work; `reflected` is what the driver reports). The
textures array starts all-NULL and the samplers default to linear/clamp. -/
def FosterShaderCreate_OpenGL (programId : Nat)
    (reflected : List ReflectedUniform) : FosterShader_OpenGL :=
  let r := FosterShaderCreateUniforms reflected 0
  { id := programId,
    uniformCount := (reflected.length : Int),
    samplerCount := r.2,
    uniforms := r.1,
    textures := List.replicate 32 none,
    samplers := List.replicate 32
      { filter := FOSTER_TEXTURE_FILTER_LINEAR,
        wrapX := FOSTER_TEXTURE_WRAP_CLAMP_TO_EDGE,
        wrapY := FOSTER_TEXTURE_WRAP_CLAMP_TO_EDGE } }

/-- One entry written by FosterShaderGetUniforms_OpenGL. -/
def getUniformsEntries (i : Nat) (u : FosterUniform_OpenGL) :
    List FosterUniformInfo :=
  if u.glType = GL_SAMPLER_2D then
    [{ index := (i : Int), name := u.name, type := .TEXTURE2D,
       arrayElements := u.glSize },
     { index := (i : Int), name := u.samplerName, type := .SAMPLER2D,
       arrayElements := u.glSize }]
  else
    [{ index := (i : Int), name := u.name,
       type := FosterUniformTypeFromGL u.glType, arrayElements := u.glSize }]

/-- The loop of FosterShaderGetUniforms_OpenGL over the (index, uniform)
pairs: the guard `t < max` is checked once per uniform, and a sampler uniform
then performs two writes. Returns all entries written to the output buffer
(in order, including any write beyond `max`) and the final `t` (the value
stored into `*count`). -/
def getUniformsLoop (l : List (Nat × FosterUniform_OpenGL)) (t : Int)
    (max : Int) : List FosterUniformInfo × Int :=
  match l with
  | [] => ([], t)
  | (i, u) :: rest =>
    if t < max then
      let es := getUniformsEntries i u
      let r := getUniformsLoop rest (t + (es.length : Int)) max
      (es ++ r.1, r.2)
    else ([], t)

/-- FosterShaderGetUniforms_OpenGL: returns (writes performed, *count). -/
def FosterShaderGetUniforms_OpenGL (shader : FosterShader_OpenGL)
    (max : Int) : List FosterUniformInfo × Int :=
  getUniformsLoop shader.uniforms.enum 0 max

/-- FosterShaderSetUniform_OpenGL (float values elided from the calls; only
which GL call is made, with location and count, is observable here). The C
bounds check is `index < 0 || index > uniformCount`, kept verbatim. An
in-range-of-the-check index that still falls outside the uniform list
(the index = uniformCount case) is an out-of-bounds read in C; the model
returns the state unchanged there. -/
def FosterShaderSetUniform_OpenGL (s : FosterOpenGLState)
    (sh : FosterShader_OpenGL) (index : Int) :
    FosterOpenGLState × List Event :=
  if index < 0 ∨ index > sh.uniformCount then
    (s, [Event.log .error "Failed to set uniform: index out of bounds"])
  else
    let r := FosterBindProgram s sh.id
    let s := r.1
    let bp := r.2.map Event.gl
    match sh.uniforms.get? index.toNat with
    | none => (s, bp)
    | some uniform =>
      if uniform.glType = GL_FLOAT then
        (s, bp ++ [Event.gl (GLCall.glUniform1fv uniform.glLocation uniform.glSize)])
      else if uniform.glType = GL_FLOAT_VEC2 then
        (s, bp ++ [Event.gl (GLCall.glUniform2fv uniform.glLocation uniform.glSize)])
      else if uniform.glType = GL_FLOAT_VEC3 then
        (s, bp ++ [Event.gl (GLCall.glUniform3fv uniform.glLocation uniform.glSize)])
      else if uniform.glType = GL_FLOAT_VEC4 then
        (s, bp ++ [Event.gl (GLCall.glUniform4fv uniform.glLocation uniform.glSize)])
      else if uniform.glType = GL_FLOAT_MAT3x2 then
        (s, bp ++ [Event.gl (GLCall.glUniformMatrix3x2fv uniform.glLocation uniform.glSize)])
      else if uniform.glType = GL_FLOAT_MAT4 then
        (s, bp ++ [Event.gl (GLCall.glUniformMatrix4fv uniform.glLocation uniform.glSize)])
      else
        (s, bp ++ [Event.log .error "Failed to set uniform: unsupported type"])

/-- The per-element loop of FosterShaderSetTexture_OpenGL: for each array
element, return the previous occupant reference and store the new one. -/
def setTextureLoop (h : Heap) (textures : List (Option Nat))
    (samplerIndex glSize : Int) (values : List (Option Nat)) (i : Nat) :
    Heap × List (Option Nat) × List Event :=
  if hcond : (i : Int) < glSize ∧
      samplerIndex + (i : Int) < FOSTER_MAX_UNIFORM_TEXTURES then
    let idx := (samplerIndex + (i : Int)).toNat
    let r1 := FosterTextureReturnReference h (textures.getD idx none)
    let h2 := FosterTextureRequestReference r1.1 (values.getD i none)
    let textures2 := textures.set idx (values.getD i none)
    let r2 := setTextureLoop h2 textures2 samplerIndex glSize values (i + 1)
    (r2.1, r2.2.1, r1.2 ++ r2.2.2)
  else (h, textures, [])
termination_by (glSize - (i : Int)).toNat
decreasing_by
  have h1 : (i : Int) < glSize := hcond.1
  omega

/-- FosterShaderSetTexture_OpenGL. -/
def FosterShaderSetTexture_OpenGL (h : Heap) (sh : FosterShader_OpenGL)
    (index : Int) (values : List (Option Nat)) :
    Heap × FosterShader_OpenGL × List Event :=
  if index < 0 ∨ index > sh.uniformCount then
    (h, sh, [Event.log .error "Failed to set uniform: index out of bounds"])
  else
    match sh.uniforms.get? index.toNat with
    | none => (h, sh, [])
    | some uniform =>
      if uniform.glType ≠ GL_SAMPLER_2D then
        (h, sh, [Event.log .error "Failed to set uniform: not a Texture"])
      else
        let r := setTextureLoop h sh.textures uniform.samplerIndex
          uniform.glSize values 0
        (r.1, { sh with textures := r.2.1 }, r.2.2)

instance : Inhabited FosterTextureSampler :=
  ⟨{ filter := 0, wrapX := 0, wrapY := 0 }⟩

/-- The per-element loop of FosterShaderSetSampler_OpenGL. -/
def setSamplerLoop (samplers : List FosterTextureSampler)
    (samplerIndex glSize : Int) (values : List FosterTextureSampler)
    (i : Nat) : List FosterTextureSampler :=
  if hcond : (i : Int) < glSize ∧
      samplerIndex + (i : Int) < FOSTER_MAX_UNIFORM_TEXTURES then
    let idx := (samplerIndex + (i : Int)).toNat
    let samplers := samplers.set idx (values.getD i default)
    setSamplerLoop samplers samplerIndex glSize values (i + 1)
  else samplers
termination_by (glSize - (i : Int)).toNat
decreasing_by
  have h1 : (i : Int) < glSize := hcond.1
  omega

/-- FosterShaderSetSampler_OpenGL. -/
def FosterShaderSetSampler_OpenGL (sh : FosterShader_OpenGL) (index : Int)
    (values : List FosterTextureSampler) :
    FosterShader_OpenGL × List Event :=
  if index < 0 ∨ index > sh.uniformCount then
    (sh, [Event.log .error "Failed to set uniform: index out of bounds"])
  else
    match sh.uniforms.get? index.toNat with
    | none => (sh, [])
    | some uniform =>
      if uniform.glType ≠ GL_SAMPLER_2D then
        (sh, [Event.log .error "Failed to set uniform: not a Sampler"])
      else
        let samplers :=
          setSamplerLoop sh.samplers uniform.samplerIndex uniform.glSize
            values 0
        ({ sh with samplers := samplers }, [])

/-- The reference-release loop of FosterShaderDestroy_OpenGL over the 32
texture slots. -/
def returnReferenceFold (h : Heap) (textures : List (Option Nat)) :
    Heap × List Event :=
  match textures with
  | [] => (h, [])
  | p :: rest =>
    let r1 := FosterTextureReturnReference h p
    let r2 := returnReferenceFold r1.1 rest
    (r2.1, r1.2 ++ r2.2)

/-- FosterShaderDestroy_OpenGL: deletes the program and returns every
texture-slot reference (the uniform-name frees are host-memory cleanup). -/
def FosterShaderDestroy_OpenGL (h : Heap) (sh : FosterShader_OpenGL) :
    Heap × List Event :=
  let r := returnReferenceFold h sh.textures
  (r.1, Event.gl (GLCall.glDeleteProgram sh.id) :: r.2)

/-! ### Mesh buffer uploads -/

/-- A GPU buffer object: its allocated size and contents (byte at offset;
`none` = undefined, which is what glBufferData with a NULL pointer leaves). -/
structure GLBuffer where
  size : Int
  contents : Int → Option Nat

/-- The empty buffer a fresh mesh starts with. -/
def GLBuffer.empty : GLBuffer :=
  { size := 0, contents := fun _ => none }

/-- glBufferData target size NULL: reallocate, contents undefined. -/
def glBufferDataModel (size : Int) : GLBuffer :=
  { size := size, contents := fun _ => none }

/-- glBufferSubData: overwrite exactly the bytes [offset, offset + size). -/
def glBufferSubDataModel (buf : GLBuffer) (offset size : Int)
    (data : Int → Option Nat) : GLBuffer :=
  { buf with contents := fun i =>
      if offset ≤ i ∧ i < offset + size then data (i - offset)
      else buf.contents i }

/-- FosterMeshSetVertexData_OpenGL: grows the buffer (never shrinks) before
sub-uploading at the destination offset. `genId` is the driver-generated
buffer name used only when the mesh has no vertex buffer yet. -/
def FosterMeshSetVertexData_OpenGL (s : FosterOpenGLState)
    (it : FosterMesh_OpenGL) (buf : GLBuffer) (data : Int → Option Nat)
    (dataSize dataDestOffset : Int) (genId : Nat) :
    FosterOpenGLState × FosterMesh_OpenGL × GLBuffer × List GLCall :=
  let (s, c0) := FosterBindArray s it.id
  let (it, c1) :=
    if it.vertexBuffer = 0 then
      ({ it with vertexBuffer := genId }, [GLCall.glGenBuffers genId])
    else (it, [])
  let c2 := [GLCall.glBindBuffer GL_ARRAY_BUFFER it.vertexBuffer]
  let totalSize := dataDestOffset + dataSize
  let (it, buf, c3) :=
    if totalSize > it.vertexBufferSize then
      ({ it with vertexBufferSize := totalSize }, glBufferDataModel totalSize,
       [GLCall.glBufferData GL_ARRAY_BUFFER totalSize])
    else (it, buf, [])
  let buf := glBufferSubDataModel buf dataDestOffset dataSize data
  (s, it, buf,
   c0 ++ c1 ++ c2 ++ c3 ++
   [GLCall.glBufferSubData GL_ARRAY_BUFFER dataDestOffset dataSize])

/-- FosterMeshSetIndexData_OpenGL (identical shape on the index buffer). -/
def FosterMeshSetIndexData_OpenGL (s : FosterOpenGLState)
    (it : FosterMesh_OpenGL) (buf : GLBuffer) (data : Int → Option Nat)
    (dataSize dataDestOffset : Int) (genId : Nat) :
    FosterOpenGLState × FosterMesh_OpenGL × GLBuffer × List GLCall :=
  let (s, c0) := FosterBindArray s it.id
  let (it, c1) :=
    if it.indexBuffer = 0 then
      ({ it with indexBuffer := genId }, [GLCall.glGenBuffers genId])
    else (it, [])
  let c2 := [GLCall.glBindBuffer GL_ELEMENT_ARRAY_BUFFER it.indexBuffer]
  let totalSize := dataDestOffset + dataSize
  let (it, buf, c3) :=
    if totalSize > it.indexBufferSize then
      ({ it with indexBufferSize := totalSize }, glBufferDataModel totalSize,
       [GLCall.glBufferData GL_ELEMENT_ARRAY_BUFFER totalSize])
    else (it, buf, [])
  let buf := glBufferSubDataModel buf dataDestOffset dataSize data
  (s, it, buf,
   c0 ++ c1 ++ c2 ++ c3 ++
   [GLCall.glBufferSubData GL_ELEMENT_ARRAY_BUFFER dataDestOffset dataSize])

/-! ### Draw and clear commands -/

/-- The draw command (object handles carried as the records themselves). -/
structure FosterDrawCommand where
  target : Option FosterTarget_OpenGL
  mesh : FosterMesh_OpenGL
  shader : FosterShader_OpenGL
  hasViewport : Int
  hasScissor : Int
  viewport : FosterRect
  scissor : FosterRect
  indexStart : Int
  indexCount : Int
  instanceCount : Int
  compare : FosterCompare
  depthMask : Int
  cull : FosterCull
  blend : FosterBlend

/-- The clear command (depth carried over ℚ in place of the C float). -/
structure FosterClearCommand where
  target : Option FosterTarget_OpenGL
  clip : FosterRect
  color : FosterColor
  depth : ℚ
  stencil : Int
  mask : Nat
deriving DecidableEq, Repr

/-- The sampler-update loop at the top of the texture section of
FosterDraw_OpenGL: FosterSetTextureSampler for every non-NULL slot. -/
def drawUpdateSamplers (s : FosterOpenGLState) (h : Heap)
    (textures : List (Option Nat)) (samplers : List FosterTextureSampler) :
    FosterOpenGLState × Heap × List GLCall :=
  match textures, samplers with
  | p :: trest, smp :: srest =>
    let r1 :=
      match p with
      | none => (s, h, ([] : List GLCall))
      | some p => FosterSetTextureSampler s h p smp
    let r2 := drawUpdateSamplers r1.1 r1.2.1 trest srest
    (r2.1, r2.2.1, r1.2.2 ++ r2.2.2)
  | _, _ => (s, h, [])

/-- The texture record a shader slot refers to: NULL slot or dangling
pointer gives none, otherwise the heap record. -/
def liveTexAt (h : Heap) (textures : List (Option Nat)) (idx : Nat) :
    Option FosterTexture_OpenGL :=
  match textures.getD idx none with
  | none => none
  | some p => heapGet h p

/-- The inner per-array-element loop of the texture-binding section of
FosterDraw_OpenGL for one sampler uniform: a live non-disposed texture is
bound to the next global slot, a NULL or disposed texture leaves unit 0 in
the uniform value array. Returns (state, slot counter, unit values written
for elements n, n+1, ..., calls). -/
def drawBindLoop (s : FosterOpenGLState) (h : Heap)
    (textures : List (Option Nat)) (samplerIndex glSize : Int) (slot : Int)
    (n : Nat) : FosterOpenGLState × Int × List Int × List GLCall :=
  if hcond : (n : Int) < glSize ∧ slot < FOSTER_MAX_UNIFORM_TEXTURES then
    match liveTexAt h textures (samplerIndex + (n : Int)).toNat with
    | some t =>
      if t.disposed = false then
        let r1 := FosterEnsureTextureSlotIs s slot.toNat t.id
        let r2 := drawBindLoop r1.1 h textures samplerIndex glSize (slot + 1)
          (n + 1)
        (r2.1, r2.2.1, slot :: r2.2.2.1, r1.2 ++ r2.2.2.2)
      else
        let r2 := drawBindLoop s h textures samplerIndex glSize slot (n + 1)
        (r2.1, r2.2.1, 0 :: r2.2.2.1, r2.2.2.2)
    | none =>
      let r2 := drawBindLoop s h textures samplerIndex glSize slot (n + 1)
      (r2.1, r2.2.1, 0 :: r2.2.2.1, r2.2.2.2)
  else (s, slot, [], [])
termination_by (glSize - (n : Int)).toNat
decreasing_by
  all_goals
    have h1 : (n : Int) < glSize := hcond.1
    omega

/-- The outer loop of the texture-binding section of FosterDraw_OpenGL over
the shader's uniforms: skips non-sampler uniforms, binds each sampler
uniform's textures and uploads its texture-unit indices with glUniform1iv. -/
def drawBindTextures (s : FosterOpenGLState) (h : Heap)
    (shader : FosterShader_OpenGL) (uniforms : List FosterUniform_OpenGL)
    (slot : Int) : FosterOpenGLState × List GLCall :=
  match uniforms with
  | [] => (s, [])
  | u :: rest =>
    if u.glType ≠ GL_SAMPLER_2D then
      drawBindTextures s h shader rest slot
    else
      let r1 := drawBindLoop s h shader.textures u.samplerIndex u.glSize
        slot 0
      let c2 := [GLCall.glUniform1iv u.glLocation u.glSize r1.2.2.1]
      let r3 := drawBindTextures r1.1 h shader rest r1.2.1
      (r3.1, r1.2.2.2 ++ c2 ++ r3.2)

/-- FosterDraw_OpenGL: applies all per-draw state, updates samplers, binds
textures, and issues exactly one (optionally instanced) indexed draw. -/
def FosterDraw_OpenGL (s : FosterOpenGLState) (h : Heap)
    (command : FosterDrawCommand) : FosterOpenGLState × Heap × List GLCall :=
  let shader := command.shader
  let mesh := command.mesh
  let r1 := FosterBindFrameBuffer s command.target
  let r2 := FosterBindProgram r1.1 shader.id
  let r3 := FosterBindArray r2.1 mesh.id
  let r4 := FosterSetBlend r3.1 command.blend
  let r5 := FosterSetCompare r4.1 command.compare
  let r6 := FosterSetDepthMask r5.1 command.depthMask
  let r7 := FosterSetCull r6.1 command.cull
  let r8 := FosterSetViewport r7.1 command.hasViewport command.viewport
  let r9 := FosterSetScissor r8.1 command.hasScissor command.scissor
  let r10 := drawUpdateSamplers r9.1 h shader.textures shader.samplers
  let r11 := drawBindTextures r10.1 r10.2.1 shader shader.uniforms 0
  let indexStartPtr := mesh.indexSize * command.indexStart
  let c12 :=
    if command.instanceCount > 0 then
      [GLCall.glDrawElementsInstanced GL_TRIANGLES command.indexCount
        mesh.indexFormat indexStartPtr command.instanceCount]
    else
      [GLCall.glDrawElements GL_TRIANGLES command.indexCount
        mesh.indexFormat indexStartPtr]
  (r11.1, r10.2.1,
   r1.2 ++ r2.2 ++ r3.2 ++ r4.2 ++ r5.2 ++ r6.2 ++ r7.2 ++ r8.2 ++ r9.2 ++
     r10.2.2 ++ r11.2 ++ c12)

/-- FosterClear_OpenGL: binds the target framebuffer, applies the command's
clip rectangle as the viewport, disables the scissor, prepares each requested
channel, and issues one combined glClear. -/
def FosterClear_OpenGL (s : FosterOpenGLState) (command : FosterClearCommand) :
    FosterOpenGLState × List GLCall :=
  let r1 := FosterBindFrameBuffer s command.target
  let r2 := FosterSetViewport r1.1 1 command.clip
  let r3 := FosterSetScissor r2.1 0 r2.1.stateScissor
  let clear0 : Nat := 0
  let colorOn :=
    command.mask &&& FOSTER_CLEAR_MASK_COLOR = FOSTER_CLEAR_MASK_COLOR
  let clear1 := if colorOn then clear0 ||| GL_COLOR_BUFFER_BIT else clear0
  let c4 :=
    if colorOn then
      [GLCall.glColorMask true true true true,
       GLCall.glClearColor ((command.color.r : ℚ) / 255)
         ((command.color.g : ℚ) / 255) ((command.color.b : ℚ) / 255)
         ((command.color.a : ℚ) / 255)]
    else []
  let depthOn :=
    command.mask &&& FOSTER_CLEAR_MASK_DEPTH = FOSTER_CLEAR_MASK_DEPTH
  let r5 := if depthOn then FosterSetDepthMask r3.1 1 else (r3.1, [])
  let clear2 := if depthOn then clear1 ||| GL_DEPTH_BUFFER_BIT else clear1
  let c5 := if depthOn then r5.2 ++ [GLCall.glClearDepth command.depth]
    else []
  let stencilOn :=
    command.mask &&& FOSTER_CLEAR_MASK_STENCIL = FOSTER_CLEAR_MASK_STENCIL
  let clear3 := if stencilOn then clear2 ||| GL_STENCIL_BUFFER_BIT else clear2
  let c6 := if stencilOn then [GLCall.glClearStencil command.stencil] else []
  (r5.1, r1.2 ++ r2.2 ++ r3.2 ++ c4 ++ c5 ++ c6 ++ [GLCall.glClear clear3])

/-- Whether a GL call is a (re)allocating glBufferData call. -/
def isBufferDataCall : GLCall → Bool
  | .glBufferData _ _ => true
  | _ => false

/-- Whether a GL call is a glClear call. -/
def isClearCall : GLCall → Bool
  | .glClear _ => true
  | _ => false

/-- Whether a GL call is a glBindTexture call. -/
def isBindTextureCall : GLCall → Bool
  | .glBindTexture _ _ => true
  | _ => false

/-- Some slot of the heap holds a live (not disposed) texture record with
this GL texture id. -/
def heapHasLiveId (h : Heap) (id : Nat) : Prop :=
  ∃ p t, heapGet h p = some t ∧ t.disposed = false ∧ t.id = id

/-- The OR of the GL clear-buffer bits requested by a FosterClearMask
value. -/
def clearBitsOf (mask : Nat) : Nat :=
  (if mask &&& FOSTER_CLEAR_MASK_COLOR = FOSTER_CLEAR_MASK_COLOR then
    GL_COLOR_BUFFER_BIT else 0) |||
  (if mask &&& FOSTER_CLEAR_MASK_DEPTH = FOSTER_CLEAR_MASK_DEPTH then
    GL_DEPTH_BUFFER_BIT else 0) |||
  (if mask &&& FOSTER_CLEAR_MASK_STENCIL = FOSTER_CLEAR_MASK_STENCIL then
    GL_STENCIL_BUFFER_BIT else 0)

/-! ### Concrete fixtures used to instantiate the theorems -/

def testBlend : FosterBlend :=
  { colorOp := .ADD, colorSrc := .One, colorDst := .OneMinusSrcAlpha,
    alphaOp := .ADD, alphaSrc := .One, alphaDst := .OneMinusSrcAlpha,
    mask := 15, rgba := 0xFFFFFFFF }

def testState : FosterOpenGLState :=
  { stateInitializing := false, stateActiveTextureSlot := 0,
    stateTextureSlots := List.replicate 32 0, stateProgram := 0,
    stateFrameBuffer := 0, stateVertexArray := 0,
    stateFrameBufferWidth := 640, stateFrameBufferHeight := 480,
    stateHasScissor := 0,
    stateViewport := { x := 0, y := 0, w := 640, h := 480 },
    stateScissor := { x := 0, y := 0, w := 0, h := 0 },
    stateCompare := .NONE, stateCull := .NONE, stateBlend := testBlend,
    stateDepthMask := 0, windowPixelWidth := 640, windowPixelHeight := 480 }

def testRect : FosterRect := { x := 10, y := 5, w := 100, h := 50 }

def testBuf : GLBuffer :=
  { size := 8, contents := fun i => if 0 ≤ i ∧ i < 8 then some 7 else none }

def testMesh : FosterMesh_OpenGL :=
  { id := 3, indexBuffer := 5, vertexBuffer := 4, instanceBuffer := 0,
    indexFormat := GL_UNSIGNED_SHORT, indexSize := 2,
    vertexBufferSize := 8, indexBufferSize := 8 }

def testData : Int → Option Nat := fun _ => some 9

def testTexture : FosterTexture_OpenGL :=
  { id := 7, width := 4, height := 4, format := .R8G8B8A8,
    glInternalFormat := GL_RGBA, glFormat := GL_RGBA,
    glType := GL_UNSIGNED_BYTE, glAttachment := 0,
    sampler := { filter := -1, wrapX := -1, wrapY := -1 },
    refCount := 1, disposed := false }

def testTextureB : FosterTexture_OpenGL :=
  { testTexture with id := 8, refCount := 2 }

def testTextureC : FosterTexture_OpenGL :=
  { testTexture with id := 9, refCount := 3 }

def testHeap : Heap := [some testTexture, some testTextureB,
  some testTextureC]

def testClearCommand : FosterClearCommand :=
  { target := none, clip := testRect,
    color := { r := 255, g := 128, b := 0, a := 255 },
    depth := 0, stencil := 0, mask := FOSTER_CLEAR_MASK_COLOR }

def testSamplerUniform : FosterUniform_OpenGL :=
  { name := "uTex", samplerName := "uTex_sampler", glLocation := 2,
    glSize := 1, glType := GL_SAMPLER_2D, samplerIndex := 0 }

def testShaderOneSampler : FosterShader_OpenGL :=
  { id := 9, uniformCount := 1, samplerCount := 1,
    uniforms := [testSamplerUniform],
    textures := List.replicate 32 none,
    samplers := List.replicate 32
      { filter := FOSTER_TEXTURE_FILTER_LINEAR,
        wrapX := FOSTER_TEXTURE_WRAP_CLAMP_TO_EDGE,
        wrapY := FOSTER_TEXTURE_WRAP_CLAMP_TO_EDGE } }

def testTextureDead : FosterTexture_OpenGL :=
  { testTexture with id := 11, disposed := true }

def testHeapDead : Heap := [some testTexture, some testTextureDead]

def testShaderDraw : FosterShader_OpenGL :=
  { id := 9, uniformCount := 1, samplerCount := 1,
    uniforms := [testSamplerUniform],
    textures := some 0 :: List.replicate 31 none,
    samplers := List.replicate 32
      { filter := FOSTER_TEXTURE_FILTER_LINEAR,
        wrapX := FOSTER_TEXTURE_WRAP_CLAMP_TO_EDGE,
        wrapY := FOSTER_TEXTURE_WRAP_CLAMP_TO_EDGE } }

def testDrawCommand : FosterDrawCommand :=
  { target := none, mesh := testMesh, shader := testShaderDraw,
    hasViewport := 0, hasScissor := 0, viewport := testRect,
    scissor := testRect, indexStart := 0, indexCount := 6,
    instanceCount := 0, compare := .NONE, depthMask := 0, cull := .NONE,
    blend := testBlend }

/-! ## Helper lemmas -/

theorem FOSTER_RECT_EQUAL_iff (a b : FosterRect) :
    FOSTER_RECT_EQUAL a b = true ↔ a = b := by
  cases a; cases b
  simp [FOSTER_RECT_EQUAL, FosterRect.mk.injEq, and_assoc]

theorem FOSTER_RECT_EQUAL_self (a : FosterRect) :
    FOSTER_RECT_EQUAL a a = true := (FOSTER_RECT_EQUAL_iff a a).mpr rfl

theorem viewportOf_update_viewport (s : FosterOpenGLState) (v : FosterRect)
    (enabled : Int) (rect : FosterRect) :
    viewportOf { s with stateViewport := v } enabled rect =
      viewportOf s enabled rect := rfl

theorem scissorOf_update_scissor (s : FosterOpenGLState) (v : FosterRect)
    (e : Int) (rect : FosterRect) :
    scissorOf { s with stateScissor := v, stateHasScissor := e } rect =
      scissorOf s rect := rfl

theorem scissorOf_update_has (s : FosterOpenGLState) (e : Int)
    (rect : FosterRect) :
    scissorOf { s with stateHasScissor := e } rect = scissorOf s rect := rfl

theorem FosterSetViewport_fst (s : FosterOpenGLState) (enabled : Int)
    (rect : FosterRect) :
    (FosterSetViewport s enabled rect).1 =
      { s with stateViewport := viewportOf s enabled rect } := by
  simp only [FosterSetViewport]
  split_ifs with h
  · rfl
  · push_neg at h
    have h2 := h.2
    rw [ne_eq, Bool.not_eq_false, FOSTER_RECT_EQUAL_iff] at h2
    show s = _
    rw [h2]

theorem FosterSetViewport_twice (s : FosterOpenGLState) (enabled : Int)
    (rect : FosterRect) (hinit : s.stateInitializing = false) :
    (FosterSetViewport (FosterSetViewport s enabled rect).1 enabled rect).2 =
      [] := by
  rw [FosterSetViewport_fst]
  simp only [FosterSetViewport, viewportOf_update_viewport]
  simp [hinit, FOSTER_RECT_EQUAL_self]

theorem FosterSetScissor_fst_enabled (s : FosterOpenGLState) (enabled : Int)
    (rect : FosterRect) (hen : enabled ≠ 0) :
    (FosterSetScissor s enabled rect).1 =
      { s with stateScissor := scissorOf s rect,
               stateHasScissor := enabled } := by
  by_cases h : s.stateInitializing = true ∨ enabled ≠ s.stateHasScissor ∨
      (enabled ≠ 0 ∧
        FOSTER_RECT_EQUAL (scissorOf s rect) s.stateScissor = false)
  · simp only [FosterSetScissor, if_pos h, if_pos hen]
  · simp only [FosterSetScissor, if_neg h]
    push_neg at h
    obtain ⟨-, hhas, heq⟩ := h
    have h3 := heq hen
    rw [ne_eq, Bool.not_eq_false, FOSTER_RECT_EQUAL_iff] at h3
    show s = _
    rw [h3, hhas]

theorem FosterSetScissor_fst_disabled (s : FosterOpenGLState)
    (rect : FosterRect) :
    (FosterSetScissor s 0 rect).1 = { s with stateHasScissor := 0 } := by
  have hz : ¬((0 : Int) ≠ 0) := fun h => h rfl
  by_cases h : s.stateInitializing = true ∨ (0 : Int) ≠ s.stateHasScissor ∨
      ((0 : Int) ≠ 0 ∧
        FOSTER_RECT_EQUAL (scissorOf s rect) s.stateScissor = false)
  · simp only [FosterSetScissor, if_pos h, if_neg hz]
  · simp only [FosterSetScissor, if_neg h]
    push_neg at h
    have hhas := h.2.1
    show s = _
    rw [hhas]

theorem FosterSetScissor_twice (s : FosterOpenGLState) (enabled : Int)
    (rect : FosterRect) (hinit : s.stateInitializing = false) :
    (FosterSetScissor (FosterSetScissor s enabled rect).1 enabled rect).2 =
      [] := by
  by_cases hen : enabled = 0
  · subst hen
    rw [FosterSetScissor_fst_disabled]
    have hz : ¬((0 : Int) ≠ 0) := fun h => h rfl
    simp only [FosterSetScissor, if_neg hz, scissorOf_update_has]
    simp [hinit]
  · rw [FosterSetScissor_fst_enabled s enabled rect hen]
    simp only [FosterSetScissor, if_pos hen, scissorOf_update_scissor]
    simp [hinit, hen, FOSTER_RECT_EQUAL_self]

theorem FosterSetBlend_fst (s : FosterOpenGLState) (blend : FosterBlend) :
    (FosterSetBlend s blend).1 = { s with stateBlend := blend } := rfl

theorem FosterSetBlend_twice (s : FosterOpenGLState) (blend : FosterBlend)
    (hinit : s.stateInitializing = false) :
    (FosterSetBlend (FosterSetBlend s blend).1 blend).2 = [] := by
  rw [FosterSetBlend_fst]
  simp only [FosterSetBlend]
  simp [hinit]

theorem FosterSetCompare_fst (s : FosterOpenGLState)
    (compare : FosterCompare) :
    (FosterSetCompare s compare).1 = { s with stateCompare := compare } := rfl

theorem FosterSetCompare_twice (s : FosterOpenGLState)
    (compare : FosterCompare) (hinit : s.stateInitializing = false) :
    (FosterSetCompare (FosterSetCompare s compare).1 compare).2 = [] := by
  rw [FosterSetCompare_fst]
  simp only [FosterSetCompare]
  simp [hinit]

theorem FosterSetDepthMask_fst (s : FosterOpenGLState) (depthMask : Int) :
    (FosterSetDepthMask s depthMask).1 =
      { s with stateDepthMask := depthMask } := rfl

theorem FosterSetDepthMask_twice (s : FosterOpenGLState) (depthMask : Int)
    (hinit : s.stateInitializing = false) :
    (FosterSetDepthMask (FosterSetDepthMask s depthMask).1 depthMask).2 =
      [] := by
  rw [FosterSetDepthMask_fst]
  simp only [FosterSetDepthMask]
  simp [hinit]

theorem FosterSetCull_fst (s : FosterOpenGLState) (cull : FosterCull) :
    (FosterSetCull s cull).1 = { s with stateCull := cull } := rfl

theorem FosterSetCull_twice (s : FosterOpenGLState) (cull : FosterCull)
    (hinit : s.stateInitializing = false) :
    (FosterSetCull (FosterSetCull s cull).1 cull).2 = [] := by
  rw [FosterSetCull_fst]
  simp only [FosterSetCull]
  simp [hinit]

/-! ## Claim theorems -/

/-- C1: every state-setting operation of the OpenGL backend (blend,
viewport, scissor, cull, depth compare, depth write mask), called outside
the initializing mode, leaves the cache equal to the full requested value,
and a second call with identical arguments issues zero GL calls. -/
theorem C1_redundant_state_change_elimination (s : FosterOpenGLState)
    (hinit : s.stateInitializing = false) :
    (∀ blend : FosterBlend,
      (FosterSetBlend s blend).1.stateBlend = blend ∧
      (FosterSetBlend (FosterSetBlend s blend).1 blend).2 = []) ∧
    (∀ (enabled : Int) (rect : FosterRect),
      (FosterSetViewport s enabled rect).1.stateViewport =
        viewportOf s enabled rect ∧
      (FosterSetViewport (FosterSetViewport s enabled rect).1 enabled
        rect).2 = []) ∧
    (∀ (enabled : Int) (rect : FosterRect),
      (FosterSetScissor s enabled rect).1.stateHasScissor = enabled ∧
      (enabled ≠ 0 →
        (FosterSetScissor s enabled rect).1.stateScissor =
          scissorOf s rect) ∧
      (FosterSetScissor (FosterSetScissor s enabled rect).1 enabled
        rect).2 = []) ∧
    (∀ cull : FosterCull,
      (FosterSetCull s cull).1.stateCull = cull ∧
      (FosterSetCull (FosterSetCull s cull).1 cull).2 = []) ∧
    (∀ compare : FosterCompare,
      (FosterSetCompare s compare).1.stateCompare = compare ∧
      (FosterSetCompare (FosterSetCompare s compare).1 compare).2 = []) ∧
    (∀ depthMask : Int,
      (FosterSetDepthMask s depthMask).1.stateDepthMask = depthMask ∧
      (FosterSetDepthMask (FosterSetDepthMask s depthMask).1 depthMask).2 =
        []) := by
  refine ⟨fun blend => ⟨?_, FosterSetBlend_twice s blend hinit⟩,
    fun enabled rect => ⟨?_, FosterSetViewport_twice s enabled rect hinit⟩,
    fun enabled rect =>
      ⟨?_, ?_, FosterSetScissor_twice s enabled rect hinit⟩,
    fun cull => ⟨?_, FosterSetCull_twice s cull hinit⟩,
    fun compare => ⟨?_, FosterSetCompare_twice s compare hinit⟩,
    fun depthMask => ⟨?_, FosterSetDepthMask_twice s depthMask hinit⟩⟩
  · rw [FosterSetBlend_fst]
  · rw [FosterSetViewport_fst]
  · by_cases hen : enabled = 0
    · subst hen
      rw [FosterSetScissor_fst_disabled]
    · rw [FosterSetScissor_fst_enabled s enabled rect hen]
  · intro hen
    rw [FosterSetScissor_fst_enabled s enabled rect hen]
  · rw [FosterSetCull_fst]
  · rw [FosterSetCompare_fst]
  · rw [FosterSetDepthMask_fst]

theorem C1_witness :
    testState.stateInitializing = false ∧
    (FosterSetBlend testState testBlend).1.stateBlend = testBlend ∧
    (FosterSetBlend (FosterSetBlend testState testBlend).1 testBlend).2 =
      [] ∧
    (FosterSetViewport
      (FosterSetViewport testState 1 testRect).1 1 testRect).2 = [] ∧
    (FosterSetScissor
      (FosterSetScissor testState 1 testRect).1 1 testRect).2 = [] ∧
    (FosterSetCull
      (FosterSetCull testState .BACK).1 .BACK).2 = [] ∧
    (FosterSetCompare
      (FosterSetCompare testState .LESS).1 .LESS).2 = [] ∧
    (FosterSetDepthMask
      (FosterSetDepthMask testState 1).1 1).2 = [] := by
  have h := C1_redundant_state_change_elimination testState rfl
  exact ⟨rfl, (h.1 testBlend).1, (h.1 testBlend).2,
    (h.2.1 1 testRect).2, (h.2.2.1 1 testRect).2.2,
    (h.2.2.2.1 .BACK).2, (h.2.2.2.2.1 .LESS).2, (h.2.2.2.2.2 1).2⟩

/-- C6: the viewport and scissor setters convert the caller rectangle's
y-coordinate to framebufferHeight - y - height before issuing it; with no
explicit viewport the viewport becomes the full framebuffer, and with no
explicit scissor the scissor test is disabled. -/
theorem C6_coordinate_conversion_and_defaults :
    (∀ (s : FosterOpenGLState) (enabled : Int) (rect : FosterRect),
      enabled ≠ 0 →
      (FosterSetViewport s enabled rect).1.stateViewport =
        { rect with y := s.stateFrameBufferHeight - rect.y - rect.h } ∧
      ∀ x y w h2, GLCall.glViewport x y w h2 ∈
          (FosterSetViewport s enabled rect).2 →
        y = s.stateFrameBufferHeight - rect.y - rect.h) ∧
    (∀ (s : FosterOpenGLState) (rect : FosterRect),
      (FosterSetViewport s 0 rect).1.stateViewport =
        { x := 0, y := 0, w := s.stateFrameBufferWidth,
          h := s.stateFrameBufferHeight }) ∧
    (∀ (s : FosterOpenGLState) (enabled : Int) (rect : FosterRect),
      enabled ≠ 0 →
      (FosterSetScissor s enabled rect).1.stateScissor.y =
        s.stateFrameBufferHeight - rect.y - rect.h ∧
      ∀ x y w h2, GLCall.glScissor x y w h2 ∈
          (FosterSetScissor s enabled rect).2 →
        y = s.stateFrameBufferHeight - rect.y - rect.h) ∧
    (∀ (s : FosterOpenGLState) (rect : FosterRect),
      (FosterSetScissor s 0 rect).1.stateHasScissor = 0) := by
  have hsy : ∀ (s : FosterOpenGLState) (rect : FosterRect),
      (scissorOf s rect).y = s.stateFrameBufferHeight - rect.y - rect.h := by
    intro s rect
    simp only [scissorOf]
    split_ifs <;> rfl
  refine ⟨?_, ?_, ?_, ?_⟩
  · intro s enabled rect hen
    constructor
    · rw [FosterSetViewport_fst]
      show viewportOf s enabled rect = _
      simp only [viewportOf, if_pos hen]
    · intro x y w h2 hmem
      simp only [FosterSetViewport] at hmem
      split_ifs at hmem with hcond
      · simp only [List.mem_singleton, GLCall.glViewport.injEq] at hmem
        rw [hmem.2.1]
        simp only [viewportOf, if_pos hen]
      · simp at hmem
  · intro s rect
    rw [FosterSetViewport_fst]
    show viewportOf s 0 rect = _
    simp only [viewportOf]
    norm_num
  · intro s enabled rect hen
    constructor
    · rw [FosterSetScissor_fst_enabled s enabled rect hen]
      show (scissorOf s rect).y = _
      exact hsy s rect
    · intro x y w h2 hmem
      by_cases hcond : s.stateInitializing = true ∨
          enabled ≠ s.stateHasScissor ∨
          (enabled ≠ 0 ∧
            FOSTER_RECT_EQUAL (scissorOf s rect) s.stateScissor = false)
      · simp only [FosterSetScissor, if_pos hcond, if_pos hen] at hmem
        rcases List.mem_append.mp hmem with hm | hm
        · split_ifs at hm <;> simp at hm
        · simp only [List.mem_singleton, GLCall.glScissor.injEq] at hm
          rw [hm.2.1]
          exact hsy s rect
      · simp only [FosterSetScissor, if_neg hcond] at hmem
        simp at hmem
  · intro s rect
    rw [FosterSetScissor_fst_disabled]

theorem C6_witness :
    (1 : Int) ≠ 0 ∧
    (FosterSetViewport testState 1 testRect).1.stateViewport =
      { testRect with
          y := testState.stateFrameBufferHeight - testRect.y - testRect.h } ∧
    (FosterSetViewport testState 1 testRect).1.stateViewport.y = 425 ∧
    (FosterSetScissor testState 1 testRect).1.stateScissor.y = 425 ∧
    (FosterSetViewport testState 0 testRect).1.stateViewport =
      { x := 0, y := 0, w := testState.stateFrameBufferWidth,
        h := testState.stateFrameBufferHeight } ∧
    (FosterSetScissor testState 0 testRect).1.stateHasScissor = 0 := by
  have h := C6_coordinate_conversion_and_defaults
  have h1 := (h.1 testState 1 testRect (by decide)).1
  have h3 := (h.2.2.1 testState 1 testRect (by decide)).1
  refine ⟨by decide, h1, ?_, ?_, h.2.1 testState testRect,
    h.2.2.2 testState testRect⟩
  · rw [h1]
    decide
  · rw [h3]
    decide

theorem filter_isBufferDataCall_bindArray (s : FosterOpenGLState)
    (id : Nat) :
    ((FosterBindArray s id).2.filter isBufferDataCall) = [] := by
  simp only [FosterBindArray]
  split_ifs <;> simp [isBufferDataCall]

/-- C9: mesh vertex/index uploads never shrink the buffer: an upload past
the current capacity reallocates to the total size with glBufferData issued
immediately before the glBufferSubData, and an upload that fits leaves the
capacity unchanged, issues no glBufferData, and overwrites exactly the bytes
[offset, offset + size). -/
theorem C9_mesh_buffers_grow_monotonically (s : FosterOpenGLState)
    (it : FosterMesh_OpenGL) (buf : GLBuffer) (data : Int → Option Nat)
    (dataSize dataDestOffset : Int) (genId : Nat) :
    ((FosterMeshSetVertexData_OpenGL s it buf data dataSize dataDestOffset
        genId).2.1.vertexBufferSize ≥ it.vertexBufferSize ∧
      (dataDestOffset + dataSize > it.vertexBufferSize →
        (FosterMeshSetVertexData_OpenGL s it buf data dataSize dataDestOffset
          genId).2.1.vertexBufferSize = dataDestOffset + dataSize ∧
        (FosterMeshSetVertexData_OpenGL s it buf data dataSize dataDestOffset
          genId).2.2.2.getLast? = some (GLCall.glBufferSubData GL_ARRAY_BUFFER
            dataDestOffset dataSize) ∧
        (FosterMeshSetVertexData_OpenGL s it buf data dataSize dataDestOffset
          genId).2.2.2.dropLast.getLast? = some (GLCall.glBufferData
            GL_ARRAY_BUFFER (dataDestOffset + dataSize))) ∧
      (dataDestOffset + dataSize ≤ it.vertexBufferSize →
        (FosterMeshSetVertexData_OpenGL s it buf data dataSize dataDestOffset
          genId).2.1.vertexBufferSize = it.vertexBufferSize ∧
        (FosterMeshSetVertexData_OpenGL s it buf data dataSize dataDestOffset
          genId).2.2.2.filter isBufferDataCall = [] ∧
        ∀ i, ¬(dataDestOffset ≤ i ∧ i < dataDestOffset + dataSize) →
          (FosterMeshSetVertexData_OpenGL s it buf data dataSize
            dataDestOffset genId).2.2.1.contents i = buf.contents i) ∧
      (∀ i, dataDestOffset ≤ i ∧ i < dataDestOffset + dataSize →
        (FosterMeshSetVertexData_OpenGL s it buf data dataSize dataDestOffset
          genId).2.2.1.contents i = data (i - dataDestOffset))) ∧
    ((FosterMeshSetIndexData_OpenGL s it buf data dataSize dataDestOffset
        genId).2.1.indexBufferSize ≥ it.indexBufferSize ∧
      (dataDestOffset + dataSize > it.indexBufferSize →
        (FosterMeshSetIndexData_OpenGL s it buf data dataSize dataDestOffset
          genId).2.1.indexBufferSize = dataDestOffset + dataSize ∧
        (FosterMeshSetIndexData_OpenGL s it buf data dataSize dataDestOffset
          genId).2.2.2.getLast? = some (GLCall.glBufferSubData
            GL_ELEMENT_ARRAY_BUFFER dataDestOffset dataSize) ∧
        (FosterMeshSetIndexData_OpenGL s it buf data dataSize dataDestOffset
          genId).2.2.2.dropLast.getLast? = some (GLCall.glBufferData
            GL_ELEMENT_ARRAY_BUFFER (dataDestOffset + dataSize))) ∧
      (dataDestOffset + dataSize ≤ it.indexBufferSize →
        (FosterMeshSetIndexData_OpenGL s it buf data dataSize dataDestOffset
          genId).2.1.indexBufferSize = it.indexBufferSize ∧
        (FosterMeshSetIndexData_OpenGL s it buf data dataSize dataDestOffset
          genId).2.2.2.filter isBufferDataCall = [] ∧
        ∀ i, ¬(dataDestOffset ≤ i ∧ i < dataDestOffset + dataSize) →
          (FosterMeshSetIndexData_OpenGL s it buf data dataSize
            dataDestOffset genId).2.2.1.contents i = buf.contents i) ∧
      (∀ i, dataDestOffset ≤ i ∧ i < dataDestOffset + dataSize →
        (FosterMeshSetIndexData_OpenGL s it buf data dataSize dataDestOffset
          genId).2.2.1.contents i = data (i - dataDestOffset))) := by
  constructor
  · simp only [FosterMeshSetVertexData_OpenGL, glBufferDataModel,
      glBufferSubDataModel]
    split_ifs with h1 h2 h2
    · replace h2 : dataDestOffset + dataSize > it.vertexBufferSize := h2
      refine ⟨by show dataDestOffset + dataSize ≥ _; omega,
        fun hgrow => ⟨rfl, List.getLast?_concat _, ?_⟩,
        fun hfit => absurd hfit (by omega), fun i hi => by simp [hi]⟩
      rw [List.dropLast_concat]
      exact List.getLast?_concat _
    · replace h2 : ¬(dataDestOffset + dataSize > it.vertexBufferSize) := h2
      refine ⟨by show it.vertexBufferSize ≥ _; omega,
        fun hgrow => absurd hgrow h2,
        fun hfit => ⟨rfl, ?_, fun i hi => by simp [hi]⟩,
        fun i hi => by simp [hi]⟩
      simp [List.filter_append, filter_isBufferDataCall_bindArray,
        isBufferDataCall]
    · replace h2 : dataDestOffset + dataSize > it.vertexBufferSize := h2
      refine ⟨by show dataDestOffset + dataSize ≥ _; omega,
        fun hgrow => ⟨rfl, List.getLast?_concat _, ?_⟩,
        fun hfit => absurd hfit (by omega), fun i hi => by simp [hi]⟩
      rw [List.dropLast_concat]
      exact List.getLast?_concat _
    · replace h2 : ¬(dataDestOffset + dataSize > it.vertexBufferSize) := h2
      refine ⟨by show it.vertexBufferSize ≥ _; omega,
        fun hgrow => absurd hgrow h2,
        fun hfit => ⟨rfl, ?_, fun i hi => by simp [hi]⟩,
        fun i hi => by simp [hi]⟩
      simp [List.filter_append, filter_isBufferDataCall_bindArray,
        isBufferDataCall]
  · simp only [FosterMeshSetIndexData_OpenGL, glBufferDataModel,
      glBufferSubDataModel]
    split_ifs with h1 h2 h2
    · replace h2 : dataDestOffset + dataSize > it.indexBufferSize := h2
      refine ⟨by show dataDestOffset + dataSize ≥ _; omega,
        fun hgrow => ⟨rfl, List.getLast?_concat _, ?_⟩,
        fun hfit => absurd hfit (by omega), fun i hi => by simp [hi]⟩
      rw [List.dropLast_concat]
      exact List.getLast?_concat _
    · replace h2 : ¬(dataDestOffset + dataSize > it.indexBufferSize) := h2
      refine ⟨by show it.indexBufferSize ≥ _; omega,
        fun hgrow => absurd hgrow h2,
        fun hfit => ⟨rfl, ?_, fun i hi => by simp [hi]⟩,
        fun i hi => by simp [hi]⟩
      simp [List.filter_append, filter_isBufferDataCall_bindArray,
        isBufferDataCall]
    · replace h2 : dataDestOffset + dataSize > it.indexBufferSize := h2
      refine ⟨by show dataDestOffset + dataSize ≥ _; omega,
        fun hgrow => ⟨rfl, List.getLast?_concat _, ?_⟩,
        fun hfit => absurd hfit (by omega), fun i hi => by simp [hi]⟩
      rw [List.dropLast_concat]
      exact List.getLast?_concat _
    · replace h2 : ¬(dataDestOffset + dataSize > it.indexBufferSize) := h2
      refine ⟨by show it.indexBufferSize ≥ _; omega,
        fun hgrow => absurd hgrow h2,
        fun hfit => ⟨rfl, ?_, fun i hi => by simp [hi]⟩,
        fun i hi => by simp [hi]⟩
      simp [List.filter_append, filter_isBufferDataCall_bindArray,
        isBufferDataCall]

theorem FosterBindFrameBuffer_fst (s : FosterOpenGLState)
    (target : Option FosterTarget_OpenGL) :
    (FosterBindFrameBuffer s target).1 =
      { s with
          stateFrameBufferWidth :=
            match target with
            | none => s.windowPixelWidth
            | some t => t.width,
          stateFrameBufferHeight :=
            match target with
            | none => s.windowPixelHeight
            | some t => t.height,
          stateFrameBuffer :=
            match target with
            | none => 0
            | some t => t.id } := by
  cases target <;> rfl

theorem viewportOf_one (s : FosterOpenGLState) (rect : FosterRect) :
    viewportOf s 1 rect =
      { rect with y := s.stateFrameBufferHeight - rect.y - rect.h } := by
  simp [viewportOf]

theorem filter_isClearCall_bindFrameBuffer (s : FosterOpenGLState)
    (target : Option FosterTarget_OpenGL) :
    ((FosterBindFrameBuffer s target).2.filter isClearCall) = [] := by
  cases target <;> simp only [FosterBindFrameBuffer] <;>
    split_ifs <;> simp [isClearCall]

theorem filter_isClearCall_setViewport (s : FosterOpenGLState) (e : Int)
    (r : FosterRect) :
    ((FosterSetViewport s e r).2.filter isClearCall) = [] := by
  simp only [FosterSetViewport]
  split_ifs <;> simp [isClearCall]

theorem filter_isClearCall_setScissor (s : FosterOpenGLState) (e : Int)
    (r : FosterRect) :
    ((FosterSetScissor s e r).2.filter isClearCall) = [] := by
  simp only [FosterSetScissor]
  split_ifs <;> simp [isClearCall]

theorem filter_isClearCall_setDepthMask (s : FosterOpenGLState) (d : Int) :
    ((FosterSetDepthMask s d).2.filter isClearCall) = [] := by
  simp only [FosterSetDepthMask]
  split_ifs <;> simp [isClearCall]

/-- C3 (amended): the clear command binds the target framebuffer, applies
the command's clip rectangle (converted against the target's height) as the
viewport — not the full-framebuffer viewport —, disables the scissor,
forces the color write mask and normalized clear color when color is
requested, forces the depth-write mask on when depth is requested, and
issues exactly one combined glClear whose mask is the OR of the requested
channel bits. -/
theorem C3_clear_execution_amended (s : FosterOpenGLState)
    (command : FosterClearCommand) :
    (FosterClear_OpenGL s command).1.stateFrameBuffer =
      (match command.target with | none => 0 | some t => t.id) ∧
    (FosterClear_OpenGL s command).1.stateViewport =
      { command.clip with
          y := (match command.target with
                | none => s.windowPixelHeight
                | some t => t.height) - command.clip.y - command.clip.h } ∧
    (FosterClear_OpenGL s command).1.stateHasScissor = 0 ∧
    (command.mask &&& FOSTER_CLEAR_MASK_COLOR = FOSTER_CLEAR_MASK_COLOR →
      GLCall.glColorMask true true true true ∈
        (FosterClear_OpenGL s command).2 ∧
      GLCall.glClearColor ((command.color.r : ℚ) / 255)
        ((command.color.g : ℚ) / 255) ((command.color.b : ℚ) / 255)
        ((command.color.a : ℚ) / 255) ∈ (FosterClear_OpenGL s command).2) ∧
    (command.mask &&& FOSTER_CLEAR_MASK_DEPTH = FOSTER_CLEAR_MASK_DEPTH →
      (FosterClear_OpenGL s command).1.stateDepthMask = 1) ∧
    (FosterClear_OpenGL s command).2.filter isClearCall =
      [GLCall.glClear (clearBitsOf command.mask)] := by
  obtain ⟨target, clip, color, depth, stencil, mask⟩ := command
  refine ⟨?_, ?_, ?_, ?_, ?_, ?_⟩
  · simp only [FosterClear_OpenGL, FosterBindFrameBuffer_fst,
      FosterSetViewport_fst, FosterSetScissor_fst_disabled]
    split_ifs <;> cases target <;> simp [FosterSetDepthMask_fst]
  · simp only [FosterClear_OpenGL, FosterBindFrameBuffer_fst,
      FosterSetViewport_fst, FosterSetScissor_fst_disabled, viewportOf_one]
    split_ifs <;> cases target <;> simp [FosterSetDepthMask_fst]
  · simp only [FosterClear_OpenGL, FosterBindFrameBuffer_fst,
      FosterSetViewport_fst, FosterSetScissor_fst_disabled]
    split_ifs <;> simp [FosterSetDepthMask_fst]
  · intro hc
    simp only [FosterClear_OpenGL, if_pos hc]
    constructor <;> simp [List.mem_append]
  · intro hd
    simp only [FosterClear_OpenGL, if_pos hd]
    simp [FosterSetDepthMask_fst]
  · by_cases hc : mask &&& FOSTER_CLEAR_MASK_COLOR = FOSTER_CLEAR_MASK_COLOR
      <;> by_cases hd :
        mask &&& FOSTER_CLEAR_MASK_DEPTH = FOSTER_CLEAR_MASK_DEPTH
      <;> by_cases hs :
        mask &&& FOSTER_CLEAR_MASK_STENCIL = FOSTER_CLEAR_MASK_STENCIL
      <;> simp [FosterClear_OpenGL, hc, hd, hs, clearBitsOf,
        List.filter_append, filter_isClearCall_bindFrameBuffer,
        filter_isClearCall_setViewport, filter_isClearCall_setScissor,
        filter_isClearCall_setDepthMask, isClearCall]

theorem C3_witness :
    (testClearCommand.mask &&& FOSTER_CLEAR_MASK_COLOR =
      FOSTER_CLEAR_MASK_COLOR) ∧
    (FosterClear_OpenGL testState testClearCommand).1.stateViewport =
      { testClearCommand.clip with
          y := testState.windowPixelHeight - testClearCommand.clip.y -
            testClearCommand.clip.h } ∧
    (FosterClear_OpenGL testState testClearCommand).1.stateHasScissor = 0 ∧
    GLCall.glColorMask true true true true ∈
      (FosterClear_OpenGL testState testClearCommand).2 ∧
    (FosterClear_OpenGL testState testClearCommand).2.filter isClearCall =
      [GLCall.glClear (clearBitsOf testClearCommand.mask)] := by
  have h := C3_clear_execution_amended testState testClearCommand
  exact ⟨by decide, h.2.1, h.2.2.1, (h.2.2.2.1 (by decide)).1, h.2.2.2.2.2⟩

/-- C3 (counterexample): with the full framebuffer being 640 x 480 and the
clear command's clip rectangle (10, 5, 100, 50), the clear applies the
converted clip rectangle (10, 425, 100, 50) as the viewport and never
issues the full-framebuffer glViewport (0, 0, 640, 480), contradicting
"forces the full-framebuffer viewport". -/
theorem C3_counterexample :
    (FosterClear_OpenGL testState testClearCommand).1.stateViewport =
      { x := 10, y := 425, w := 100, h := 50 } ∧
    (FosterClear_OpenGL testState testClearCommand).1.stateViewport ≠
      { x := 0, y := 0, w := testState.stateFrameBufferWidth,
        h := testState.stateFrameBufferHeight } ∧
    GLCall.glViewport 10 425 100 50 ∈
      (FosterClear_OpenGL testState testClearCommand).2 ∧
    GLCall.glViewport 0 0 640 480 ∉
      (FosterClear_OpenGL testState testClearCommand).2 := by
  refine ⟨?_, ?_, ?_, ?_⟩ <;> decide

theorem C9_witness :
    (0 : Int) + 4 ≤ testMesh.vertexBufferSize ∧
    (FosterMeshSetVertexData_OpenGL testState testMesh testBuf testData 4 0
      6).2.1.vertexBufferSize = testMesh.vertexBufferSize ∧
    (FosterMeshSetVertexData_OpenGL testState testMesh testBuf testData 4 0
      6).2.2.2.filter isBufferDataCall = [] ∧
    (FosterMeshSetVertexData_OpenGL testState testMesh testBuf testData 4 0
      6).2.2.1.contents 5 = testBuf.contents 5 ∧
    (FosterMeshSetVertexData_OpenGL testState testMesh testBuf testData 4 0
      6).2.2.1.contents 2 = testData (2 - 0) ∧
    (0 : Int) + 16 > testMesh.indexBufferSize ∧
    (FosterMeshSetIndexData_OpenGL testState testMesh testBuf testData 16 0
      6).2.1.indexBufferSize = (0 : Int) + 16 ∧
    (FosterMeshSetIndexData_OpenGL testState testMesh testBuf testData 16 0
      6).2.2.2.dropLast.getLast? = some (GLCall.glBufferData
        GL_ELEMENT_ARRAY_BUFFER ((0 : Int) + 16)) := by
  have hv := C9_mesh_buffers_grow_monotonically testState testMesh testBuf
    testData 4 0 6
  have hi := C9_mesh_buffers_grow_monotonically testState testMesh testBuf
    testData 16 0 6
  exact ⟨by decide, (hv.1.2.2.1 (by decide)).1, (hv.1.2.2.1 (by decide)).2.1,
    (hv.1.2.2.1 (by decide)).2.2 5 (by decide),
    hv.1.2.2.2 2 (by decide), by decide,
    (hi.2.2.1 (by decide)).1, (hi.2.2.1 (by decide)).2.2⟩

theorem stripZeroSub_append_pattern (tail : List Char) (base : List Char)
    (hclean : hasZeroSub base = false) :
    stripZeroSub (base ++ '[' :: '0' :: ']' :: tail) = base := by
  induction base with
  | nil =>
    show (if ('[' : Char) = '[' ∧ (('0' :: ']' :: tail).take 2 = ['0', ']'])
      then ([] : List Char) else _) = []
    rw [if_pos ⟨rfl, by simp⟩]
  | cons c rest ih =>
    have hclean2 : (if c = '[' ∧ rest.take 2 = ['0', ']'] then true
        else hasZeroSub rest) = false := hclean
    have hsplit : (¬(c = '[' ∧ rest.take 2 = ['0', ']'])) ∧
        hasZeroSub rest = false := by
      by_cases hg : c = '[' ∧ rest.take 2 = ['0', ']']
      · rw [if_pos hg] at hclean2
        exact absurd hclean2 (by simp)
      · rw [if_neg hg] at hclean2
        exact ⟨hg, hclean2⟩
    have hguardfalse : ¬(c = '[' ∧
        ((rest ++ '[' :: '0' :: ']' :: tail).take 2 = ['0', ']'])) := by
      match rest with
      | [] =>
        intro hg
        have h2 := hg.2
        simp only [List.nil_append, List.take_succ_cons, List.take_zero]
          at h2
        exact absurd h2 (by decide)
      | [a] =>
        intro hg
        have h2 := hg.2
        simp only [List.cons_append, List.nil_append, List.take_succ_cons,
          List.take_zero, List.cons.injEq, and_true] at h2
        exact absurd h2.2 (by decide)
      | a :: b :: r2 =>
        intro hg
        refine hsplit.1 ⟨hg.1, ?_⟩
        simpa only [List.cons_append, List.take_succ_cons, List.take_zero]
          using hg.2
    show (if c = '[' ∧ ((rest ++ '[' :: '0' :: ']' :: tail).take 2 =
        ['0', ']']) then ([] : List Char)
      else c :: stripZeroSub (rest ++ '[' :: '0' :: ']' :: tail)) = c :: rest
    rw [if_neg hguardfalse, ih hsplit.2]

/-- C8 (amended): the reflected-uniform name scan truncates the name at the
FIRST occurrence of the bracket-zero-bracket pattern. For a native name
whose only such occurrence is the trailing array-subscript-zero suffix, the
caller-visible name is exactly the name with that suffix stripped, and the
reported array length is preserved through shader creation and
FosterShaderGetUniforms_OpenGL. -/
theorem C8_array_name_truncated_at_first_pattern (base tail : List Char)
    (hclean : hasZeroSub base = false) :
    stripZeroSub (base ++ '[' :: '0' :: ']' :: tail) = base ∧
    (∀ (glSize glLocation : Int) (glType : Nat) (max : Int),
      glType ≠ GL_SAMPLER_2D → 1 ≤ max →
      (FosterShaderGetUniforms_OpenGL
        (FosterShaderCreate_OpenGL 1
          [{ nameBuf := ⟨base ++ ['[', '0', ']']⟩, glSize := glSize,
             glType := glType, glLocation := glLocation }]) max).1 =
        [{ index := 0, name := ⟨base⟩,
           type := FosterUniformTypeFromGL glType,
           arrayElements := glSize }]) := by
  refine ⟨stripZeroSub_append_pattern tail base hclean, ?_⟩
  intro glSize glLocation glType max hns hmax
  have hstrip := stripZeroSub_append_pattern [] base hclean
  simp only [FosterShaderGetUniforms_OpenGL, FosterShaderCreate_OpenGL,
    FosterShaderCreateUniforms, List.enum]
  rw [hstrip]
  simp only [if_neg hns, List.enumFrom, getUniformsLoop,
    if_pos (show (0 : Int) < max by omega), getUniformsEntries]
  simp [if_neg hns]

theorem C8_witness :
    hasZeroSub "uColors".data = false ∧
    (1 : Int) ≤ 8 ∧
    (FosterShaderGetUniforms_OpenGL
      (FosterShaderCreate_OpenGL 1
        [{ nameBuf := ⟨"uColors".data ++ ['[', '0', ']']⟩, glSize := 4,
           glType := GL_FLOAT_VEC4, glLocation := 3 }]) 8).1 =
      [{ index := 0, name := ⟨"uColors".data⟩,
         type := FosterUniformTypeFromGL GL_FLOAT_VEC4,
         arrayElements := 4 }] := by
  refine ⟨by decide, by decide, ?_⟩
  exact (C8_array_name_truncated_at_first_pattern "uColors".data []
    (by decide)).2 4 3 GL_FLOAT_VEC4 8 (by decide) (by decide)

/-- C8 (counterexample): the native name composed of the two characters
  s, then bracket-zero-bracket, then .v, then bracket-zero-bracket again,
carries a trailing array-subscript-zero suffix, yet the caller-visible name
produced by shader creation is the name truncated at the FIRST pattern
occurrence, not the name with only the trailing suffix stripped. -/
theorem C8_counterexample :
    ("s[0].v[0]" : String).data = ("s[0].v" : String).data ++ ['[', '0', ']'] ∧
    ((FosterShaderCreate_OpenGL 1
      [{ nameBuf := "s[0].v[0]", glSize := 4, glType := GL_FLOAT,
         glLocation := 0 }]).uniforms.map FosterUniform_OpenGL.name) =
      ["s"] ∧
    ((FosterShaderCreate_OpenGL 1
      [{ nameBuf := "s[0].v[0]", glSize := 4, glType := GL_FLOAT,
         glLocation := 0 }]).uniforms.map FosterUniform_OpenGL.name) ≠
      ["s[0].v"] := by
  refine ⟨?_, ?_, ?_⟩ <;> decide

theorem FosterShaderCreateUniforms_length (R : List ReflectedUniform)
    (sc : Int) : (FosterShaderCreateUniforms R sc).1.length = R.length := by
  induction R generalizing sc with
  | nil => rfl
  | cons r rest ih =>
    simp only [FosterShaderCreateUniforms, List.length_cons, ih]

theorem FosterShaderCreateUniforms_snd (R : List ReflectedUniform)
    (sc : Int) :
    (FosterShaderCreateUniforms R sc).2 = sc + samplerIndexSum R := by
  induction R generalizing sc with
  | nil => simp [FosterShaderCreateUniforms, samplerIndexSum]
  | cons r rest ih =>
    simp only [FosterShaderCreateUniforms, samplerIndexSum, List.map_cons,
      List.sum_cons]
    split_ifs with h <;> rw [ih] <;> simp only [samplerIndexSum] <;> ring

theorem FosterShaderCreateUniforms_get (R : List ReflectedUniform)
    (sc : Int) (i : Nat) (r : ReflectedUniform) (hr : R.get? i = some r) :
    (FosterShaderCreateUniforms R sc).1.get? i = some
      { name := ⟨stripZeroSub r.nameBuf.data⟩,
        samplerName := if r.glType = GL_SAMPLER_2D then
          String.mk (stripZeroSub r.nameBuf.data) ++ "_sampler" else "",
        glLocation := r.glLocation, glSize := r.glSize, glType := r.glType,
        samplerIndex := if r.glType = GL_SAMPLER_2D then
          sc + samplerIndexSum (R.take i) else 0 } := by
  induction R generalizing sc i with
  | nil => simp at hr
  | cons a rest ih =>
    cases i with
    | zero =>
      rw [List.get?_cons_zero] at hr
      injection hr with hr
      subst hr
      simp only [FosterShaderCreateUniforms, List.get?_cons_zero,
        List.take_zero, samplerIndexSum, List.map_nil, List.sum_nil,
        Option.some.injEq]
      split_ifs with h <;> simp
    | succ n =>
      rw [List.get?_cons_succ] at hr
      simp only [FosterShaderCreateUniforms, List.get?_cons_succ]
      rw [ih _ _ hr]
      simp only [Option.some.injEq, FosterUniform_OpenGL.mk.injEq,
        true_and, List.take_succ_cons, samplerIndexSum, List.map_cons,
        List.sum_cons]
      split_ifs with hrs has <;> ring

theorem getUniformsEntries_length_le (i : Nat) (u : FosterUniform_OpenGL) :
    (getUniformsEntries i u).length ≤ 2 := by
  simp only [getUniformsEntries]
  split_ifs <;> simp

theorem getUniformsLoop_fst_of_le
    (l : List (Nat × FosterUniform_OpenGL)) (t max : Int)
    (hle : t + 2 * l.length ≤ max) :
    (getUniformsLoop l t max).1 =
      l.flatMap fun p => getUniformsEntries p.1 p.2 := by
  induction l generalizing t with
  | nil => rfl
  | cons p rest ih =>
    obtain ⟨i, u⟩ := p
    have ht : t < max := by
      simp only [List.length_cons] at hle
      omega
    simp only [getUniformsLoop, if_pos ht, List.flatMap_cons]
    rw [ih]
    have h2 := getUniformsEntries_length_le i u
    simp only [List.length_cons] at hle
    omega

theorem filter_getUniformsEntries (j i : Nat) (u : FosterUniform_OpenGL) :
    ((getUniformsEntries j u).filter fun e => e.index == (i : Int)) =
      if j = i then getUniformsEntries j u else [] := by
  simp only [getUniformsEntries]
  split_ifs with hs hj hj <;>
    simp [List.filter_cons, beq_iff_eq, Nat.cast_inj, hj]

theorem filter_bind_enumFrom_lt (l : List FosterUniform_OpenGL)
    (k i : Nat) (hik : i < k) :
    (((List.enumFrom k l).flatMap fun p =>
        getUniformsEntries p.1 p.2).filter fun e => e.index == (i : Int)) =
      [] := by
  induction l generalizing k with
  | nil => rfl
  | cons u rest ih =>
    simp only [List.enumFrom, List.flatMap_cons, List.filter_append]
    rw [filter_getUniformsEntries k i u, if_neg (by omega),
      ih (k + 1) (by omega)]
    rfl

theorem filter_bind_enumFrom (l : List FosterUniform_OpenGL) (k i : Nat)
    (hki : k ≤ i) (u : FosterUniform_OpenGL)
    (hu : l.get? (i - k) = some u) :
    (((List.enumFrom k l).flatMap fun p =>
        getUniformsEntries p.1 p.2).filter fun e => e.index == (i : Int)) =
      getUniformsEntries i u := by
  induction l generalizing k with
  | nil => simp at hu
  | cons a rest ih =>
    simp only [List.enumFrom, List.flatMap_cons, List.filter_append]
    by_cases hk : k = i
    · subst hk
      rw [show k - k = 0 from by omega, List.get?_cons_zero] at hu
      injection hu with hu
      subst hu
      rw [filter_getUniformsEntries k k a, if_pos rfl,
        filter_bind_enumFrom_lt rest (k + 1) k (by omega)]
      simp
    · obtain ⟨m, hm⟩ : ∃ m, i - k = m + 1 := ⟨i - k - 1, by omega⟩
      rw [hm, List.get?_cons_succ] at hu
      have hu2 : rest.get? (i - (k + 1)) = some u := by
        rw [show i - (k + 1) = m from by omega]
        exact hu
      rw [filter_getUniformsEntries k i a, if_neg hk,
        ih (k + 1) (by omega) hu2]
      rfl

/-- C7: for every created shader and every sampler-typed reflected uniform
of array length N: the caller-visible uniform list (fully enumerated)
exposes exactly two entries for that reflected slot — one Texture2D and one
Sampler2D, both with arrayElements N and the same index —, the uniform's
samplerIndex is the running sum of the array lengths of all earlier sampler
uniforms (a contiguous block of N units), and the shader's samplerCount is
the total of all sampler array lengths. -/
theorem C7_sampler_uniform_splitting (programId : Nat)
    (reflected : List ReflectedUniform) (i : Nat) (r : ReflectedUniform)
    (hr : reflected.get? i = some r)
    (hsampler : r.glType = GL_SAMPLER_2D) (max : Int)
    (hmax : 2 * (reflected.length : Int) ≤ max) :
    ((FosterShaderGetUniforms_OpenGL
        (FosterShaderCreate_OpenGL programId reflected) max).1.filter
        fun e => e.index == (i : Int)) =
      [{ index := (i : Int), name := ⟨stripZeroSub r.nameBuf.data⟩,
         type := .TEXTURE2D, arrayElements := r.glSize },
       { index := (i : Int),
         name := String.mk (stripZeroSub r.nameBuf.data) ++ "_sampler",
         type := .SAMPLER2D, arrayElements := r.glSize }] ∧
    (FosterShaderCreate_OpenGL programId reflected).uniforms.get? i = some
      { name := ⟨stripZeroSub r.nameBuf.data⟩,
        samplerName := String.mk (stripZeroSub r.nameBuf.data) ++ "_sampler",
        glLocation := r.glLocation, glSize := r.glSize, glType := r.glType,
        samplerIndex := samplerIndexSum (reflected.take i) } ∧
    (FosterShaderCreate_OpenGL programId reflected).samplerCount =
      samplerIndexSum reflected := by
  have hget := FosterShaderCreateUniforms_get reflected 0 i r hr
  rw [if_pos hsampler, if_pos hsampler, zero_add] at hget
  have hu : (FosterShaderCreate_OpenGL programId reflected).uniforms.get? i
      = some
      { name := ⟨stripZeroSub r.nameBuf.data⟩,
        samplerName := String.mk (stripZeroSub r.nameBuf.data) ++ "_sampler",
        glLocation := r.glLocation, glSize := r.glSize, glType := r.glType,
        samplerIndex := samplerIndexSum (reflected.take i) } := hget
  refine ⟨?_, hu, ?_⟩
  · simp only [FosterShaderGetUniforms_OpenGL, List.enum]
    rw [getUniformsLoop_fst_of_le _ 0 max ?hlen]
    case hlen =>
      rw [List.enumFrom_length]
      show (0 : Int) + 2 *
        ((FosterShaderCreateUniforms reflected 0).1.length : Int) ≤ max
      rw [FosterShaderCreateUniforms_length]
      omega
    rw [filter_bind_enumFrom _ 0 i (by omega) _
      (by rw [Nat.sub_zero]; exact hu)]
    simp only [getUniformsEntries, if_pos hsampler]
  · show (FosterShaderCreateUniforms reflected 0).2 = _
    rw [FosterShaderCreateUniforms_snd]
    ring

theorem C7_witness :
    ([⟨"uTex[0]", 2, GL_SAMPLER_2D, 5⟩] :
        List ReflectedUniform).get? 0 = some ⟨"uTex[0]", 2, GL_SAMPLER_2D, 5⟩ ∧
    ((FosterShaderGetUniforms_OpenGL
        (FosterShaderCreate_OpenGL 1 [⟨"uTex[0]", 2, GL_SAMPLER_2D, 5⟩])
        8).1.filter fun e => e.index == ((0 : Nat) : Int)) =
      [{ index := 0, name := "uTex", type := .TEXTURE2D,
         arrayElements := 2 },
       { index := 0, name := "uTex_sampler", type := .SAMPLER2D,
         arrayElements := 2 }] ∧
    (FosterShaderCreate_OpenGL 1
      [⟨"uTex[0]", 2, GL_SAMPLER_2D, 5⟩]).samplerCount = 2 := by
  have h := C7_sampler_uniform_splitting 1
    [⟨"uTex[0]", 2, GL_SAMPLER_2D, 5⟩] 0 ⟨"uTex[0]", 2, GL_SAMPLER_2D, 5⟩
    (by decide) (by decide) 8 (by decide)
  refine ⟨by decide, ?_, ?_⟩
  · rw [h.1]
    decide
  · rw [h.2.2]
    decide

theorem heapGet_eq (h : Heap) (p : Nat) :
    heapGet h p = (h.get? p).getD none :=
  List.getD_eq_getD_get? h none p

theorem heapGet_lt_length (h : Heap) (p : Nat) (t : FosterTexture_OpenGL)
    (hget : heapGet h p = some t) : p < h.length := by
  by_contra hge
  push_neg at hge
  rw [heapGet, List.getD_eq_default _ _ hge] at hget
  exact absurd hget (by simp)

theorem heapGet_set_self (h : Heap) (p : Nat)
    (t : Option FosterTexture_OpenGL) (hlt : p < h.length) :
    heapGet (heapSet h p t) p = t := by
  rw [heapGet_eq, heapSet, List.get?_eq_getElem?,
    List.getElem?_set_eq_of_lt _ hlt, Option.getD_some]

theorem heapGet_set_ne (h : Heap) (q p : Nat)
    (t : Option FosterTexture_OpenGL) (hne : q ≠ p) :
    heapGet (heapSet h q t) p = heapGet h p := by
  rw [heapGet_eq, heapGet_eq, heapSet, List.get?_eq_getElem?,
    List.get?_eq_getElem?, List.getElem?_set_ne hne]

theorem heapSet_length (h : Heap) (p : Nat)
    (t : Option FosterTexture_OpenGL) :
    (heapSet h p t).length = h.length := List.length_set h p t

/-- The effect of FosterTextureReturnReference at the texture's own slot. -/
theorem returnReference_spec (h : Heap) (p : Nat)
    (t : FosterTexture_OpenGL) (hget : heapGet h p = some t) :
    (FosterTextureReturnReference h (some p)).1 =
      (if t.refCount - 1 ≤ 0 then heapSet h p none
       else heapSet h p (some { t with refCount := t.refCount - 1 })) := by
  simp only [FosterTextureReturnReference, hget]
  split_ifs <;> rfl

/-- FosterTextureReturnReference leaves every other slot unchanged. -/
theorem returnReference_get_other (h : Heap) (q p : Nat) (hne : q ≠ p) :
    heapGet (FosterTextureReturnReference h (some q)).1 p = heapGet h p := by
  simp only [FosterTextureReturnReference]
  cases hq : heapGet h q with
  | none => rfl
  | some tq =>
    dsimp only
    split_ifs <;> exact heapGet_set_ne h q p _ hne

theorem returnReference_none (h : Heap) :
    FosterTextureReturnReference h none = (h, []) := rfl

theorem requestReference_spec (h : Heap) (p : Nat)
    (t : FosterTexture_OpenGL) (hget : heapGet h p = some t) :
    FosterTextureRequestReference h (some p) =
      heapSet h p (some { t with refCount := t.refCount + 1 }) := by
  simp only [FosterTextureRequestReference, hget]

theorem requestReference_get_other (h : Heap) (q p : Nat) (hne : q ≠ p) :
    heapGet (FosterTextureRequestReference h (some q)) p = heapGet h p := by
  simp only [FosterTextureRequestReference]
  cases hq : heapGet h q with
  | none => rfl
  | some tq => exact heapGet_set_ne h q p _ hne

theorem returnReference_trace (h : Heap) (p : Nat)
    (t : FosterTexture_OpenGL) (hget : heapGet h p = some t) :
    (FosterTextureReturnReference h (some p)).2 =
      (if t.refCount - 1 ≤ 0 ∧ t.disposed = false then
        [Event.log .error
          "Texture is being freed without deleting its GPU Texture Data"]
      else []) := by
  simp only [FosterTextureReturnReference, hget]
  split_ifs <;> simp_all

/-- First destroy: marks disposed, deletes the GPU texture exactly once,
decrements the count, and frees the host record iff the count reaches
zero. -/
theorem textureDestroy_spec (h : Heap) (p : Nat)
    (t : FosterTexture_OpenGL) (hget : heapGet h p = some t)
    (hdisp : t.disposed = false) :
    (1 < t.refCount →
      heapGet (FosterTextureDestroy_OpenGL h p).1 p =
        some { t with disposed := true, refCount := t.refCount - 1 }) ∧
    (t.refCount ≤ 1 →
      heapGet (FosterTextureDestroy_OpenGL h p).1 p = none) ∧
    (FosterTextureDestroy_OpenGL h p).2 =
      [Event.gl (GLCall.glDeleteTextures t.id)] := by
  have hlt := heapGet_lt_length h p t hget
  have hget2 : heapGet (heapSet h p (some { t with disposed := true })) p =
      some { t with disposed := true } :=
    heapGet_set_self h p _ hlt
  have hlt2 : p < (heapSet h p (some { t with disposed := true })).length :=
    by rw [heapSet_length]; exact hlt
  simp only [FosterTextureDestroy_OpenGL, hget, if_pos hdisp]
  refine ⟨?_, ?_, ?_⟩
  · intro h1
    rw [returnReference_spec _ p _ hget2]
    have : ¬({ t with disposed := true } :
        FosterTexture_OpenGL).refCount - 1 ≤ 0 := by
      show ¬(t.refCount - 1 ≤ 0)
      omega
    rw [if_neg this, heapGet_set_self _ p _ hlt2]
  · intro h1
    rw [returnReference_spec _ p _ hget2]
    have : ({ t with disposed := true } :
        FosterTexture_OpenGL).refCount - 1 ≤ 0 := by
      show t.refCount - 1 ≤ 0
      omega
    rw [if_pos this, heapGet_set_self _ p _ hlt2]
  · rw [returnReference_trace _ p _ hget2]
    rw [if_neg (by simp)]

/-- A second destroy of an already-disposed texture is a no-op. -/
theorem textureDestroy_disposed_noop (h : Heap) (p : Nat)
    (t : FosterTexture_OpenGL) (hget : heapGet h p = some t)
    (hdisp : t.disposed = true) :
    FosterTextureDestroy_OpenGL h p = (h, []) := by
  simp only [FosterTextureDestroy_OpenGL, hget]
  rw [if_neg (by simp [hdisp])]

/-- The release loop of FosterShaderDestroy_OpenGL decrements a texture's
count once per slot that references it (when the count stays positive). -/
theorem returnReferenceFold_get (l : List (Option Nat)) (h : Heap) (p : Nat)
    (t : FosterTexture_OpenGL) (hget : heapGet h p = some t)
    (hcount : ((l.count (some p) : Int)) < t.refCount) :
    heapGet (returnReferenceFold h l).1 p =
      some { t with refCount := t.refCount - l.count (some p) } := by
  induction l generalizing h t with
  | nil => simpa using hget
  | cons a rest ih =>
    cases a with
    | none =>
      have hc : ((none : Option Nat) :: rest).count (some p) =
          rest.count (some p) := by
        simp [List.count_cons]
      rw [hc]
      simp only [returnReferenceFold, returnReference_none]
      exact ih h t hget (by rw [hc] at hcount; exact hcount)
    | some q =>
      by_cases hqp : q = p
      · rw [hqp] at hcount ⊢
        have hc : ((some p : Option Nat) :: rest).count (some p) =
            rest.count (some p) + 1 := by
          simp [List.count_cons]
        rw [hc] at hcount ⊢
        simp only [returnReferenceFold]
        rw [returnReference_spec h p t hget]
        have hnf : ¬(t.refCount - 1 ≤ 0) := by
          have : (0 : Int) ≤ (rest.count (some p) : Int) := by positivity
          push_cast at hcount
          omega
        rw [if_neg hnf]
        have hget2 : heapGet
            (heapSet h p (some { t with refCount := t.refCount - 1 })) p =
            some { t with refCount := t.refCount - 1 } :=
          heapGet_set_self h p _ (heapGet_lt_length h p t hget)
        rw [ih _ _ hget2 (by push_cast at hcount ⊢; omega)]
        simp only [Option.some.injEq, FosterTexture_OpenGL.mk.injEq,
          true_and, and_true]
        push_cast
        ring
      · have hb1 : ((some q : Option Nat) == some p) = false :=
          beq_eq_false_iff_ne.mpr fun he => hqp (Option.some.inj he)
        have hb2 : ((some p : Option Nat) == some q) = false :=
          beq_eq_false_iff_ne.mpr fun he => hqp (Option.some.inj he).symm
        have hc : ((some q : Option Nat) :: rest).count (some p) =
            rest.count (some p) := by
          simp [List.count_cons, hb1, hb2]
        rw [hc]
        simp only [returnReferenceFold]
        have hgp := returnReference_get_other h q p hqp
        exact ih _ _ (hgp.trans hget) (by rw [hc] at hcount; exact hcount)

/-- The effect of one FosterShaderSetTexture_OpenGL call on a size-1
sampler uniform slot: the new occupant's count is incremented, the previous
occupant's count decremented, and the slot now stores the new texture. -/
theorem setTexture_slot_update (h : Heap) (sh : FosterShader_OpenGL)
    (index : Int) (u : FosterUniform_OpenGL) (values : List (Option Nat))
    (p q : Nat) (tp tq : FosterTexture_OpenGL)
    (hidx0 : 0 ≤ index) (hidxc : index ≤ sh.uniformCount)
    (hu : sh.uniforms.get? index.toNat = some u)
    (hus : u.glType = GL_SAMPLER_2D) (husz : u.glSize = 1)
    (hsi0 : 0 ≤ u.samplerIndex) (hsilt : u.samplerIndex < 32)
    (hold : sh.textures.getD u.samplerIndex.toNat none = some q)
    (hval : values.getD 0 none = some p) (hpq : p ≠ q)
    (hgp : heapGet h p = some tp) (hgq : heapGet h q = some tq)
    (hq1 : 1 < tq.refCount) :
    heapGet (FosterShaderSetTexture_OpenGL h sh index values).1 p =
      some { tp with refCount := tp.refCount + 1 } ∧
    heapGet (FosterShaderSetTexture_OpenGL h sh index values).1 q =
      some { tq with refCount := tq.refCount - 1 } ∧
    (FosterShaderSetTexture_OpenGL h sh index values).2.1.textures =
      sh.textures.set u.samplerIndex.toNat (some p) := by
  have hguard : ¬(index < 0 ∨ index > sh.uniformCount) := by omega
  simp only [FosterShaderSetTexture_OpenGL, if_neg hguard, hu]
  rw [if_neg (by simp [hus])]
  rw [setTextureLoop.eq_def]
  rw [dif_pos (show ((0 : Nat) : Int) < u.glSize ∧
      u.samplerIndex + ((0 : Nat) : Int) < FOSTER_MAX_UNIFORM_TEXTURES by
    constructor
    · simp [husz]
    · simpa [FOSTER_MAX_UNIFORM_TEXTURES] using hsilt)]
  have hidx : (u.samplerIndex + ((0 : Nat) : Int)).toNat =
      u.samplerIndex.toNat := by
    simp
  dsimp only
  rw [hidx, hold, hval]
  rw [setTextureLoop.eq_def]
  rw [dif_neg (by
    intro hcond
    have h1 := hcond.1
    rw [husz] at h1
    norm_num at h1)]
  dsimp only
  rw [returnReference_spec h q tq hgq, if_neg (by omega)]
  have hlenq := heapGet_lt_length h q tq hgq
  have hlenp := heapGet_lt_length h p tp hgp
  have hget_p1 : heapGet (heapSet h q
      (some { tq with refCount := tq.refCount - 1 })) p = some tp := by
    rw [heapGet_set_ne h q p _ (fun he => hpq he.symm)]
    exact hgp
  rw [requestReference_spec _ p tp hget_p1]
  refine ⟨?_, ?_, rfl⟩
  · rw [heapGet_set_self _ p _ (by rw [heapSet_length]; exact hlenp)]
  · rw [heapGet_set_ne _ p q _ hpq,
      heapGet_set_self h q _ hlenq]

/-- C2: texture reference-counting lifecycle. A texture starts with
refCount 1 and not disposed; shaderSetTexture increments the new occupant
and decrements the previous occupant of the slot; textureDestroy releases
the GPU texture and sets the disposed flag exactly once (a second destroy
is a no-op) and decrements the count; the host record is freed exactly when
the count reaches zero; and shaderDestroy decrements the count of a texture
once per shader slot that holds it. -/
theorem C2_texture_reference_counting :
    (∀ (width height : Int) (format : FosterTextureFormat)
      (maxTextureSize : Int) (genId : Nat) (t : FosterTexture_OpenGL),
      FosterTextureCreate_OpenGL width height format maxTextureSize genId =
        some t → t.refCount = 1 ∧ t.disposed = false) ∧
    (∀ (h : Heap) (sh : FosterShader_OpenGL) (index : Int)
      (u : FosterUniform_OpenGL) (values : List (Option Nat)) (p q : Nat)
      (tp tq : FosterTexture_OpenGL),
      0 ≤ index → index ≤ sh.uniformCount →
      sh.uniforms.get? index.toNat = some u →
      u.glType = GL_SAMPLER_2D → u.glSize = 1 →
      0 ≤ u.samplerIndex → u.samplerIndex < 32 →
      sh.textures.getD u.samplerIndex.toNat none = some q →
      values.getD 0 none = some p → p ≠ q →
      heapGet h p = some tp → heapGet h q = some tq → 1 < tq.refCount →
      heapGet (FosterShaderSetTexture_OpenGL h sh index values).1 p =
        some { tp with refCount := tp.refCount + 1 } ∧
      heapGet (FosterShaderSetTexture_OpenGL h sh index values).1 q =
        some { tq with refCount := tq.refCount - 1 }) ∧
    (∀ (h : Heap) (p : Nat) (t : FosterTexture_OpenGL),
      heapGet h p = some t → t.disposed = false →
      (FosterTextureDestroy_OpenGL h p).2 =
        [Event.gl (GLCall.glDeleteTextures t.id)] ∧
      (1 < t.refCount →
        heapGet (FosterTextureDestroy_OpenGL h p).1 p =
          some { t with disposed := true, refCount := t.refCount - 1 } ∧
        FosterTextureDestroy_OpenGL (FosterTextureDestroy_OpenGL h p).1 p =
          ((FosterTextureDestroy_OpenGL h p).1, [])) ∧
      (t.refCount ≤ 1 →
        heapGet (FosterTextureDestroy_OpenGL h p).1 p = none)) ∧
    (∀ (h : Heap) (p : Nat) (t : FosterTexture_OpenGL),
      heapGet h p = some t →
      (heapGet (FosterTextureReturnReference h (some p)).1 p = none ↔
        t.refCount - 1 ≤ 0)) ∧
    (∀ (h : Heap) (sh : FosterShader_OpenGL) (p : Nat)
      (t : FosterTexture_OpenGL), heapGet h p = some t →
      ((sh.textures.count (some p) : Int)) < t.refCount →
      heapGet (FosterShaderDestroy_OpenGL h sh).1 p =
        some { t with refCount := t.refCount - sh.textures.count (some p) })
    := by
  refine ⟨?_, ?_, ?_, ?_, ?_⟩
  · intro width height format maxTextureSize genId t hcreate
    simp only [FosterTextureCreate_OpenGL] at hcreate
    split_ifs at hcreate with h1 h2 <;>
      cases format <;> simp_all <;>
      exact ⟨by rw [← hcreate], by rw [← hcreate]⟩
  · intro h sh index u values p q tp tq h1 h2 h3 h4 h5 h6 h7 h8 h9 h10 h11
      h12 h13
    have := setTexture_slot_update h sh index u values p q tp tq h1 h2 h3
      h4 h5 h6 h7 h8 h9 h10 h11 h12 h13
    exact ⟨this.1, this.2.1⟩
  · intro h p t hget hdisp
    have hs := textureDestroy_spec h p t hget hdisp
    refine ⟨hs.2.2, ?_, hs.2.1⟩
    intro h1
    refine ⟨hs.1 h1, ?_⟩
    exact textureDestroy_disposed_noop _ p _ (hs.1 h1) rfl
  · intro h p t hget
    rw [returnReference_spec h p t hget]
    have hlt := heapGet_lt_length h p t hget
    constructor
    · intro hnone
      by_contra hpos
      rw [if_neg hpos, heapGet_set_self h p _ hlt] at hnone
      exact absurd hnone (by simp)
    · intro hle
      rw [if_pos hle, heapGet_set_self h p _ hlt]
  · intro h sh p t hget hcount
    simp only [FosterShaderDestroy_OpenGL]
    exact returnReferenceFold_get sh.textures h p t hget hcount

theorem C2_witness :
    FosterTextureCreate_OpenGL 4 4 .R8G8B8A8 1024 7 = some testTexture ∧
    (testTexture.refCount = 1 ∧ testTexture.disposed = false) ∧
    heapGet (FosterShaderSetTexture_OpenGL testHeap
        { testShaderOneSampler with
            textures := (List.replicate 32 none).set 0 (some 1) } 0
        [some 0]).1 0 =
      some { testTexture with refCount := testTexture.refCount + 1 } ∧
    heapGet (FosterShaderSetTexture_OpenGL testHeap
        { testShaderOneSampler with
            textures := (List.replicate 32 none).set 0 (some 1) } 0
        [some 0]).1 1 =
      some { testTextureB with refCount := testTextureB.refCount - 1 } ∧
    (FosterTextureDestroy_OpenGL testHeap 1).2 =
      [Event.gl (GLCall.glDeleteTextures testTextureB.id)] ∧
    heapGet (FosterTextureDestroy_OpenGL testHeap 1).1 1 =
      some { testTextureB with
              disposed := true
              refCount := testTextureB.refCount - 1 } ∧
    FosterTextureDestroy_OpenGL (FosterTextureDestroy_OpenGL testHeap 1).1
        1 = ((FosterTextureDestroy_OpenGL testHeap 1).1, []) ∧
    (heapGet (FosterTextureReturnReference testHeap (some 0)).1 0 = none ↔
      testTexture.refCount - 1 ≤ 0) ∧
    heapGet (FosterShaderDestroy_OpenGL testHeap
        { testShaderOneSampler with
            textures := ((List.replicate 32 none).set 0 (some 2)).set 5
              (some 2) }).1 2 =
      some { testTextureC with
          refCount := testTextureC.refCount -
            (((List.replicate 32 none).set 0 (some 2)).set 5
              (some 2)).count (some 2) } := by
  have h := C2_texture_reference_counting
  have hset := h.2.1 testHeap
    { testShaderOneSampler with
        textures := (List.replicate 32 none).set 0 (some 1) } 0
    testSamplerUniform [some 0] 0 1 testTexture testTextureB
    (by decide) (by decide) (by decide) (by decide) (by decide) (by decide)
    (by decide) (by decide) (by decide) (by decide) (by decide) (by decide)
    (by decide)
  have hdes := h.2.2.1 testHeap 1 testTextureB (by decide) (by decide)
  have hdes2 := hdes.2.1 (by decide)
  exact ⟨by decide,
    h.1 4 4 .R8G8B8A8 1024 7 testTexture (by decide),
    hset.1, hset.2, hdes.1, hdes2.1, hdes2.2,
    h.2.2.2.1 testHeap 0 testTexture (by decide),
    h.2.2.2.2 testHeap
      { testShaderOneSampler with
          textures := ((List.replicate 32 none).set 0 (some 2)).set 5
            (some 2) } 2 testTextureC (by decide) (by decide)⟩

theorem liveTexAt_some (h : Heap) (textures : List (Option Nat)) (idx : Nat)
    (t : FosterTexture_OpenGL) (hl : liveTexAt h textures idx = some t) :
    ∃ p, heapGet h p = some t := by
  unfold liveTexAt at hl
  cases hx : textures.getD idx none with
  | none => rw [hx] at hl; exact absurd hl (by simp)
  | some p => rw [hx] at hl; exact ⟨p, hl⟩

/-- A NULL or disposed texture at an array position leaves 0 as the unit
value that the bind loop reports for that position. -/
theorem drawBindLoop_skips_dead_fuel (h : Heap)
    (textures : List (Option Nat)) (samplerIndex glSize : Int) :
    ∀ (k : Nat) (s : FosterOpenGLState) (slot : Int) (n : Nat),
      (glSize - (n : Int)).toNat = k →
    ∀ (j : Nat) (v : Int),
      ((drawBindLoop s h textures samplerIndex glSize slot
        n).2.2.1).get? j = some v →
      (liveTexAt h textures
          (samplerIndex + ((n + j : Nat) : Int)).toNat = none ∨
       (∃ t, liveTexAt h textures
          (samplerIndex + ((n + j : Nat) : Int)).toNat = some t ∧
         t.disposed = true)) →
      v = 0 := by
  intro k
  induction k with
  | zero =>
    intro s slot n hk j v hget hdead
    rw [drawBindLoop.eq_def,
      dif_neg (by intro hc; have := hc.1; omega)] at hget
    exact absurd hget (by simp)
  | succ k ih =>
    intro s slot n hk j v hget hdead
    by_cases hslot : slot < FOSTER_MAX_UNIFORM_TEXTURES
    · have hn : (n : Int) < glSize := by omega
      rw [drawBindLoop.eq_def, dif_pos ⟨hn, hslot⟩] at hget
      cases hlive : liveTexAt h textures
          (samplerIndex + (n : Int)).toNat with
      | none =>
        rw [hlive] at hget
        dsimp only at hget
        cases j with
        | zero =>
          rw [List.get?_cons_zero] at hget
          injection hget with hget
          exact hget.symm
        | succ j =>
          rw [List.get?_cons_succ] at hget
          refine ih _ slot (n + 1) (by omega) j v hget ?_
          rw [show ((n + 1 : Nat) + j) = (n + (j + 1)) from by omega]
          exact hdead
      | some t =>
        rw [hlive] at hget
        dsimp only at hget
        by_cases hdisp : t.disposed = false
        · rw [if_pos hdisp] at hget
          cases j with
          | zero =>
            rw [show ((n : Nat) + 0) = n from by omega] at hdead
            rcases hdead with hdead | ⟨t2, ht2, htd⟩
            · rw [hlive] at hdead
              exact absurd hdead (by simp)
            · rw [hlive] at ht2
              injection ht2 with ht2
              rw [← ht2] at htd
              rw [htd] at hdisp
              exact absurd hdisp (by simp)
          | succ j =>
            rw [List.get?_cons_succ] at hget
            refine ih _ (slot + 1) (n + 1) (by omega) j v hget ?_
            rw [show ((n + 1 : Nat) + j) = (n + (j + 1)) from by omega]
            exact hdead
        · rw [if_neg hdisp] at hget
          cases j with
          | zero =>
            rw [List.get?_cons_zero] at hget
            injection hget with hget
            exact hget.symm
          | succ j =>
            rw [List.get?_cons_succ] at hget
            refine ih _ slot (n + 1) (by omega) j v hget ?_
            rw [show ((n + 1 : Nat) + j) = (n + (j + 1)) from by omega]
            exact hdead
    · rw [drawBindLoop.eq_def,
        dif_neg (by intro hc; exact hslot hc.2)] at hget
      exact absurd hget (by simp)

/-- FosterSetTextureSampler on a disposed texture changes nothing. -/
theorem setTextureSampler_disposed_noop (s : FosterOpenGLState) (h : Heap)
    (p : Nat) (smp : FosterTextureSampler) (t : FosterTexture_OpenGL)
    (hget : heapGet h p = some t) (hdisp : t.disposed = true) :
    FosterSetTextureSampler s h p smp = (s, h, []) := by
  simp only [FosterSetTextureSampler, hget]
  rw [if_neg (by simp [hdisp])]

theorem bindTexture_mem_id (s : FosterOpenGLState) (slot : Nat) (tid : Nat)
    (id : Nat)
    (hmem : GLCall.glBindTexture GL_TEXTURE_2D id ∈
      (FosterBindTexture s slot tid).2) : id = tid := by
  simp only [FosterBindTexture] at hmem
  split_ifs at hmem <;> simp_all

theorem ensureTextureSlot_mem_id (s : FosterOpenGLState) (slot : Nat)
    (tid : Nat) (id : Nat)
    (hmem : GLCall.glBindTexture GL_TEXTURE_2D id ∈
      (FosterEnsureTextureSlotIs s slot tid).2) : id = tid := by
  simp only [FosterEnsureTextureSlotIs] at hmem
  split_ifs at hmem <;> simp_all

theorem setTextureSampler_bind_live (s : FosterOpenGLState) (h : Heap)
    (p : Nat) (smp : FosterTextureSampler) (id : Nat)
    (hmem : GLCall.glBindTexture GL_TEXTURE_2D id ∈
      (FosterSetTextureSampler s h p smp).2.2) : heapHasLiveId h id := by
  simp only [FosterSetTextureSampler] at hmem
  cases hget : heapGet h p with
  | none => rw [hget] at hmem; exact absurd hmem (by simp)
  | some tex =>
    rw [hget] at hmem
    dsimp only at hmem
    by_cases hc : tex.disposed = false ∧
        (tex.sampler.filter ≠ smp.filter ∨ tex.sampler.wrapX ≠ smp.wrapX ∨
          tex.sampler.wrapY ≠ smp.wrapY)
    · rw [if_pos hc] at hmem
      dsimp only at hmem
      simp only [List.append_assoc, List.mem_append] at hmem
      rcases hmem with hb | hb | hb | hb
      · have hid := bindTexture_mem_id s 0 tex.id id hb
        exact ⟨p, tex, hget, hc.1, hid.symm⟩
      · split_ifs at hb <;> simp_all
      · split_ifs at hb <;> simp_all
      · split_ifs at hb <;> simp_all
    · rw [if_neg hc] at hmem
      exact absurd hmem (by simp)

theorem setTextureSampler_preserves (s : FosterOpenGLState) (h : Heap)
    (p : Nat) (smp : FosterTextureSampler) (q : Nat) :
    (heapGet (FosterSetTextureSampler s h p smp).2.1 q).map
        (fun t => (t.id, t.disposed)) =
      (heapGet h q).map (fun t => (t.id, t.disposed)) := by
  simp only [FosterSetTextureSampler]
  cases hget : heapGet h p with
  | none => rfl
  | some tex =>
    dsimp only
    by_cases hc : tex.disposed = false ∧
        (tex.sampler.filter ≠ smp.filter ∨ tex.sampler.wrapX ≠ smp.wrapX ∨
          tex.sampler.wrapY ≠ smp.wrapY)
    · rw [if_pos hc]
      dsimp only
      by_cases hpq : p = q
      · subst hpq
        rw [heapGet_set_self h p _ (heapGet_lt_length h p tex hget), hget]
        rfl
      · rw [heapGet_set_ne h p q _ hpq]
    · rw [if_neg hc]

theorem heapHasLiveId_preserved (h h2 : Heap)
    (hpres : ∀ q, (heapGet h2 q).map (fun t => (t.id, t.disposed)) =
      (heapGet h q).map (fun t => (t.id, t.disposed)))
    (id : Nat) (hl : heapHasLiveId h2 id) : heapHasLiveId h id := by
  obtain ⟨p, t, hget, hdisp, hid⟩ := hl
  have hp := hpres p
  rw [hget] at hp
  cases hget2 : heapGet h p with
  | none => rw [hget2] at hp; exact absurd hp (by simp)
  | some t2 =>
    rw [hget2] at hp
    simp only [Option.map_some'] at hp
    injection hp with hp
    have hps : t.disposed = t2.disposed := congrArg Prod.snd hp
    have hpf : t.id = t2.id := congrArg Prod.fst hp
    refine ⟨p, t2, hget2, ?_, ?_⟩
    · rw [← hps]
      exact hdisp
    · rw [← hpf]
      exact hid

theorem drawUpdateSamplers_preserves (textures : List (Option Nat)) :
    ∀ (s : FosterOpenGLState) (h : Heap)
      (samplers : List FosterTextureSampler) (q : Nat),
    (heapGet (drawUpdateSamplers s h textures samplers).2.1 q).map
        (fun t => (t.id, t.disposed)) =
      (heapGet h q).map (fun t => (t.id, t.disposed)) := by
  induction textures with
  | nil => intro s h samplers q; rfl
  | cons p trest ih =>
    intro s h samplers q
    cases samplers with
    | nil => rfl
    | cons smp srest =>
      dsimp only [drawUpdateSamplers]
      cases p with
      | none => exact ih _ _ _ _
      | some pp =>
        exact (ih _ _ _ _).trans (setTextureSampler_preserves s h pp smp q)

theorem drawUpdateSamplers_bind_live (textures : List (Option Nat)) :
    ∀ (s : FosterOpenGLState) (h : Heap)
      (samplers : List FosterTextureSampler) (id : Nat),
    GLCall.glBindTexture GL_TEXTURE_2D id ∈
      (drawUpdateSamplers s h textures samplers).2.2 →
    heapHasLiveId h id := by
  induction textures with
  | nil => intro s h samplers id hmem; exact absurd hmem (by simp [drawUpdateSamplers])
  | cons p trest ih =>
    intro s h samplers id hmem
    cases samplers with
    | nil => exact absurd hmem (by simp [drawUpdateSamplers])
    | cons smp srest =>
      dsimp only [drawUpdateSamplers] at hmem
      rcases List.mem_append.mp hmem with h1 | h1
      · cases p with
        | none => exact absurd h1 (by simp)
        | some pp => exact setTextureSampler_bind_live s h pp smp id h1
      · cases p with
        | none => exact ih _ _ _ _ h1
        | some pp =>
          exact heapHasLiveId_preserved h _
            (fun q => setTextureSampler_preserves s h pp smp q) id
            (ih _ _ _ _ h1)

theorem drawBindLoop_bind_live (h : Heap) (textures : List (Option Nat))
    (samplerIndex glSize : Int) :
    ∀ (k : Nat) (s : FosterOpenGLState) (slot : Int) (n : Nat),
      (glSize - (n : Int)).toNat = k →
    ∀ id, GLCall.glBindTexture GL_TEXTURE_2D id ∈
      (drawBindLoop s h textures samplerIndex glSize slot n).2.2.2 →
    heapHasLiveId h id := by
  intro k
  induction k with
  | zero =>
    intro s slot n hk id hmem
    rw [drawBindLoop.eq_def,
      dif_neg (by intro hc; have := hc.1; omega)] at hmem
    exact absurd hmem (by simp)
  | succ k ih =>
    intro s slot n hk id hmem
    by_cases hslot : slot < FOSTER_MAX_UNIFORM_TEXTURES
    · have hn : (n : Int) < glSize := by omega
      rw [drawBindLoop.eq_def, dif_pos ⟨hn, hslot⟩] at hmem
      cases hlive : liveTexAt h textures
          (samplerIndex + (n : Int)).toNat with
      | none =>
        rw [hlive] at hmem
        dsimp only at hmem
        exact ih _ slot (n + 1) (by omega) id hmem
      | some t =>
        rw [hlive] at hmem
        dsimp only at hmem
        by_cases hdisp : t.disposed = false
        · rw [if_pos hdisp] at hmem
          dsimp only at hmem
          rcases List.mem_append.mp hmem with h1 | h1
          · have hid := ensureTextureSlot_mem_id _ _ _ id h1
            obtain ⟨p, hp⟩ := liveTexAt_some h textures _ t hlive
            exact ⟨p, t, hp, hdisp, hid.symm⟩
          · exact ih _ (slot + 1) (n + 1) (by omega) id h1
        · rw [if_neg hdisp] at hmem
          dsimp only at hmem
          exact ih _ slot (n + 1) (by omega) id hmem
    · rw [drawBindLoop.eq_def,
        dif_neg (by intro hc; exact hslot hc.2)] at hmem
      exact absurd hmem (by simp)

theorem drawBindTextures_bind_live (h : Heap)
    (shader : FosterShader_OpenGL) :
    ∀ (uniforms : List FosterUniform_OpenGL) (s : FosterOpenGLState)
      (slot : Int) (id : Nat),
    GLCall.glBindTexture GL_TEXTURE_2D id ∈
      (drawBindTextures s h shader uniforms slot).2 →
    heapHasLiveId h id := by
  intro uniforms
  induction uniforms with
  | nil => intro s slot id hmem; exact absurd hmem (by simp [drawBindTextures])
  | cons u rest ih =>
    intro s slot id hmem
    dsimp only [drawBindTextures] at hmem
    split_ifs at hmem with hns
    · exact ih _ _ id hmem
    · dsimp only at hmem
      simp only [List.append_assoc, List.mem_append] at hmem
      rcases hmem with h1 | h1 | h1
      · exact drawBindLoop_bind_live h shader.textures u.samplerIndex
          u.glSize (u.glSize - ((0 : Nat) : Int)).toNat s slot 0 rfl id h1
      · exact absurd h1 (by simp)
      · exact ih _ _ id h1

theorem bindFrameBuffer_no_bindTexture (s : FosterOpenGLState)
    (target : Option FosterTarget_OpenGL) (id : Nat) :
    GLCall.glBindTexture GL_TEXTURE_2D id ∉
      (FosterBindFrameBuffer s target).2 := by
  intro hmem
  cases target <;> simp only [FosterBindFrameBuffer] at hmem <;>
    split_ifs at hmem <;> simp_all

theorem bindProgram_no_bindTexture (s : FosterOpenGLState) (pid : Nat)
    (id : Nat) :
    GLCall.glBindTexture GL_TEXTURE_2D id ∉ (FosterBindProgram s pid).2 := by
  intro hmem
  simp only [FosterBindProgram] at hmem
  split_ifs at hmem <;> simp_all

theorem bindArray_no_bindTexture (s : FosterOpenGLState) (aid : Nat)
    (id : Nat) :
    GLCall.glBindTexture GL_TEXTURE_2D id ∉ (FosterBindArray s aid).2 := by
  intro hmem
  simp only [FosterBindArray] at hmem
  split_ifs at hmem <;> simp_all

theorem setBlend_no_bindTexture (s : FosterOpenGLState)
    (blend : FosterBlend) (id : Nat) :
    GLCall.glBindTexture GL_TEXTURE_2D id ∉ (FosterSetBlend s blend).2 := by
  intro hmem
  simp only [FosterSetBlend] at hmem
  split_ifs at hmem <;> simp_all

theorem setCompare_no_bindTexture (s : FosterOpenGLState)
    (compare : FosterCompare) (id : Nat) :
    GLCall.glBindTexture GL_TEXTURE_2D id ∉
      (FosterSetCompare s compare).2 := by
  intro hmem
  cases compare <;> simp only [FosterSetCompare] at hmem <;>
    split_ifs at hmem <;> simp_all

theorem setDepthMask_no_bindTexture (s : FosterOpenGLState) (d : Int)
    (id : Nat) :
    GLCall.glBindTexture GL_TEXTURE_2D id ∉
      (FosterSetDepthMask s d).2 := by
  intro hmem
  simp only [FosterSetDepthMask] at hmem
  split_ifs at hmem <;> simp_all

theorem setCull_no_bindTexture (s : FosterOpenGLState) (cull : FosterCull)
    (id : Nat) :
    GLCall.glBindTexture GL_TEXTURE_2D id ∉ (FosterSetCull s cull).2 := by
  intro hmem
  cases cull <;> simp only [FosterSetCull] at hmem <;>
    split_ifs at hmem <;> simp_all

theorem setViewport_no_bindTexture (s : FosterOpenGLState) (e : Int)
    (r : FosterRect) (id : Nat) :
    GLCall.glBindTexture GL_TEXTURE_2D id ∉
      (FosterSetViewport s e r).2 := by
  intro hmem
  simp only [FosterSetViewport] at hmem
  split_ifs at hmem <;> simp_all

theorem setScissor_no_bindTexture (s : FosterOpenGLState) (e : Int)
    (r : FosterRect) (id : Nat) :
    GLCall.glBindTexture GL_TEXTURE_2D id ∉
      (FosterSetScissor s e r).2 := by
  intro hmem
  simp only [FosterSetScissor] at hmem
  split_ifs at hmem <;> simp_all

/-- C5: the draw-time texture binding skips NULL or disposed textures (the
unit value reported for such an array position is 0), sampler-parameter
updates are entirely skipped for disposed textures, and every glBindTexture
issued anywhere in a draw carries the GL id of a texture that is live
(present and not disposed) in the heap the draw started from. -/
theorem C5_draw_skips_disposed_textures :
    (∀ (s : FosterOpenGLState) (h : Heap) (textures : List (Option Nat))
      (samplerIndex glSize slot : Int) (n j : Nat) (v : Int),
      ((drawBindLoop s h textures samplerIndex glSize slot
        n).2.2.1).get? j = some v →
      (liveTexAt h textures
          (samplerIndex + ((n + j : Nat) : Int)).toNat = none ∨
       (∃ t, liveTexAt h textures
          (samplerIndex + ((n + j : Nat) : Int)).toNat = some t ∧
         t.disposed = true)) →
      v = 0) ∧
    (∀ (s : FosterOpenGLState) (h : Heap) (p : Nat)
      (smp : FosterTextureSampler) (t : FosterTexture_OpenGL),
      heapGet h p = some t → t.disposed = true →
      FosterSetTextureSampler s h p smp = (s, h, [])) ∧
    (∀ (s : FosterOpenGLState) (h : Heap) (command : FosterDrawCommand)
      (id : Nat),
      GLCall.glBindTexture GL_TEXTURE_2D id ∈
        (FosterDraw_OpenGL s h command).2.2 →
      heapHasLiveId h id) := by
  refine ⟨?_, setTextureSampler_disposed_noop, ?_⟩
  · intro s h textures samplerIndex glSize slot n j v hget hdead
    exact drawBindLoop_skips_dead_fuel h textures samplerIndex glSize
      (glSize - (n : Int)).toNat s slot n rfl j v hget hdead
  · intro s h command id hmem
    simp only [FosterDraw_OpenGL, List.append_assoc, List.mem_append]
      at hmem
    rcases hmem with h1 | h1 | h1 | h1 | h1 | h1 | h1 | h1 | h1 | h1 | h1
      | h1
    · exact absurd h1 (bindFrameBuffer_no_bindTexture _ _ id)
    · exact absurd h1 (bindProgram_no_bindTexture _ _ id)
    · exact absurd h1 (bindArray_no_bindTexture _ _ id)
    · exact absurd h1 (setBlend_no_bindTexture _ _ id)
    · exact absurd h1 (setCompare_no_bindTexture _ _ id)
    · exact absurd h1 (setDepthMask_no_bindTexture _ _ id)
    · exact absurd h1 (setCull_no_bindTexture _ _ id)
    · exact absurd h1 (setViewport_no_bindTexture _ _ _ id)
    · exact absurd h1 (setScissor_no_bindTexture _ _ _ id)
    · exact drawUpdateSamplers_bind_live _ _ _ _ id h1
    · exact heapHasLiveId_preserved h _
        (fun q => drawUpdateSamplers_preserves _ _ _ _ q) id
        (drawBindTextures_bind_live _ _ _ _ _ id h1)
    · split_ifs at h1 <;> simp_all

theorem C5_witness :
    ((drawBindLoop testState testHeapDead [some 1] 0 1 0 0).2.2.1.get? 0 =
        some 0 ∧
      (∃ t, liveTexAt testHeapDead [some 1]
          ((0 : Int) + ((0 + 0 : Nat) : Int)).toNat = some t ∧
        t.disposed = true) ∧
      (0 : Int) = 0) ∧
    (heapGet testHeapDead 1 = some testTextureDead ∧
      testTextureDead.disposed = true ∧
      FosterSetTextureSampler testState testHeapDead 1 testTexture.sampler =
        (testState, testHeapDead, [])) ∧
    (GLCall.glBindTexture GL_TEXTURE_2D 7 ∈
        (FosterDraw_OpenGL testState testHeapDead testDrawCommand).2.2 ∧
      heapHasLiveId testHeapDead 7) := by
  have hloop : drawBindLoop testState testHeapDead [some 1] 0 1 0 0 =
      (testState, 0, [0], []) := by
    rw [drawBindLoop.eq_def, dif_pos (by decide)]
    have hl : liveTexAt testHeapDead [some 1]
        ((0 : Int) + ((0 : Nat) : Int)).toNat = some testTextureDead := by
      decide
    rw [hl]
    dsimp only
    rw [if_neg (by decide)]
    rw [drawBindLoop.eq_def, dif_neg (by decide)]
  have hg : (drawBindLoop testState testHeapDead [some 1] 0 1 0
      0).2.2.1.get? 0 = some 0 := by rw [hloop]; rfl
  have hd : ∃ t, liveTexAt testHeapDead [some 1]
      ((0 : Int) + ((0 + 0 : Nat) : Int)).toNat = some t ∧
      t.disposed = true := ⟨testTextureDead, by decide, by decide⟩
  have hget1 : heapGet testHeapDead 1 = some testTextureDead := by decide
  have hdisp1 : testTextureDead.disposed = true := by decide
  have hm : GLCall.glBindTexture GL_TEXTURE_2D 7 ∈
      (FosterDraw_OpenGL testState testHeapDead testDrawCommand).2.2 := by
    simp only [FosterDraw_OpenGL, List.append_assoc, List.mem_append]
    exact Or.inr (Or.inr (Or.inr (Or.inr (Or.inr (Or.inr (Or.inr (Or.inr
      (Or.inr (Or.inl (by decide))))))))))
  exact ⟨⟨hg, hd, C5_draw_skips_disposed_textures.1 testState testHeapDead
      [some 1] 0 1 0 0 0 0 hg (Or.inr hd)⟩,
    ⟨hget1, hdisp1, C5_draw_skips_disposed_textures.2.1 testState
      testHeapDead 1 testTexture.sampler testTextureDead hget1 hdisp1⟩,
    ⟨hm, C5_draw_skips_disposed_textures.2.2 testState testHeapDead
      testDrawCommand 7 hm⟩⟩

/-- C10 (code bug): FosterShaderGetUniforms_OpenGL, asked for at most
max = 1 entries on a shader whose single uniform is sampler-typed, performs
2 writes into the caller's buffer (one past the bound) and stores the
count 2 > max into *count. -/
theorem C10_getUniforms_writes_past_max :
    (FosterShaderGetUniforms_OpenGL testShaderOneSampler 1).1.length = 2 ∧
    (FosterShaderGetUniforms_OpenGL testShaderOneSampler 1).2 = 2 ∧
    ¬((FosterShaderGetUniforms_OpenGL testShaderOneSampler 1).2 ≤ 1) := by
  refine ⟨?_, ?_, ?_⟩ <;> decide

/-- C4 (code bug): the bounds check of the uniform setters is
`index < 0 || index > uniformCount`, so index = uniformCount passes it:
at that failing input FosterShaderSetUniform_OpenGL logs no error, yet
still rebinds the GPU program (a GPU state change) and then reads one past
the end of the reflected uniform array in C. -/
theorem C4_bounds_check_off_by_one :
    ¬((1 : Int) < 0 ∨ (1 : Int) > testShaderOneSampler.uniformCount) ∧
    (1 : Int) ≥ testShaderOneSampler.uniformCount ∧
    (FosterShaderSetUniform_OpenGL testState testShaderOneSampler 1).2 =
      [Event.gl (GLCall.glUseProgram 9)] ∧
    (FosterShaderSetUniform_OpenGL testState testShaderOneSampler
      1).1.stateProgram = 9 ∧
    testState.stateProgram = 0 := by
  refine ⟨?_, ?_, ?_, ?_, ?_⟩ <;> decide

end Foster
